import Mathlib

/-!
Shallow embedding of the FingerJoints layout code (`geometry.py`, `options.py`).

The layout solver `defineToolBodyDimensions` and the planner control flow of
`createToolBodies` are translated over `ℚ`:

* Python `int(x)` truncates toward zero: `pythonInt`.
* Python division raises `ZeroDivisionError` on a zero divisor: `pyDiv`
  returns `none` in that case, and the solver propagates it as `.err`.
* The source computes counts/sizes (lines 164-256 of `geometry.py`),
  validates them (lines 258-266) and builds the slice lists (268-283).
  We mirror this as `resolveCounts` (the six `(isNumberOfFingersFixed,
  dynamicSizeType)` branches, one helper per branch group exactly as the
  source's `if`/`elif` chain) followed by `defineToolBodyDimensions`
  (validation and slice construction).
* BRep bodies are opaque; `createToolBodies` is modelled on the measured
  overlap height, with tool bodies represented by their slice lists, and
  `createToolBody`'s scale step by its matrix (`createToolBodyScaleMatrix`).
-/

namespace FingerJoints

/-- `options.py`: `PlacementType`. -/
inductive PlacementType
  | fingersOutside
  | notchesOutside
  | sameNumberStartFinger
  | sameNumberStartNotch
deriving DecidableEq, Repr

/-- `options.py`: `DynamicSizeType`. -/
inductive DynamicSizeType
  | fixedNotchSize
  | fixedFingerSize
  | equalNotchAndFingerSize
deriving DecidableEq, Repr

/-- The fields of `FingerJointOptions` read by `defineToolBodyDimensions`. -/
structure JointInputs where
  placementType : PlacementType
  dynamicSizeType : DynamicSizeType
  minFingerSize : ℚ
  minNotchSize : ℚ
  fixedNotchSize : ℚ
  fixedFingerSize : ℚ
  isNumberOfFingersFixed : Bool
  fixedNumFingers : ℤ
  gap : ℚ
deriving DecidableEq, Repr

/-- Python `int()` on a real number: truncation toward zero. -/
def pythonInt (q : ℚ) : ℤ := if q < 0 then ⌈q⌉ else ⌊q⌋

/-- Python division: `ZeroDivisionError` (here `none`) on a zero divisor. -/
def pyDiv (a b : ℚ) : Option ℚ := if b = 0 then none else some (a / b)

/-- Outcome of the count/size computation of `defineToolBodyDimensions`
(`geometry.py` lines 164-256): a Python runtime error (`.err`, division by
zero), the early `return None, None` (`.infeasible`), or the four resolved
quantities. -/
inductive ResolveOutcome
  | err
  | infeasible
  | ok (numFingers numNotches : ℤ) (fingerSize notchSize : ℚ)
deriving DecidableEq, Repr

/-- `geometry.py` lines 164-185: the number of fingers is fixed
(`isNumberOfFingersFixed`), the notch count follows from the placement and
the three size modes share the count computation. -/
def resolveFixedCount (size : ℚ) (inputs : JointInputs) : ResolveOutcome :=
  let gapSize := inputs.gap
  let numFingers := inputs.fixedNumFingers
  let numNotches :=
    match inputs.placementType with
    | .fingersOutside => numFingers - 1
    | .notchesOutside => numFingers + 1
    | _ => numFingers
  let numGaps := numFingers + numNotches - 1
  let totalGapSize := (numGaps : ℚ) * gapSize
  match inputs.dynamicSizeType with
  | .equalNotchAndFingerSize =>
    match pyDiv (size - totalGapSize) ((numFingers + numNotches : ℤ) : ℚ) with
    | none => .err
    | some fingerSize => .ok numFingers numNotches fingerSize fingerSize
  | .fixedNotchSize =>
    let notchSize := inputs.fixedNotchSize
    match pyDiv (size - totalGapSize - (numNotches : ℚ) * notchSize) ((numFingers : ℤ) : ℚ) with
    | none => .err
    | some fingerSize => .ok numFingers numNotches fingerSize notchSize
  | .fixedFingerSize =>
    let fingerSize := inputs.fixedFingerSize
    match pyDiv (size - totalGapSize - (numFingers : ℚ) * fingerSize) ((numNotches : ℤ) : ℚ) with
    | none => .err
    | some notchSize => .ok numFingers numNotches fingerSize notchSize

/-- `geometry.py` lines 189-214: dynamic count, equal finger and notch size. -/
def resolveDynamicEqual (size : ℚ) (inputs : JointInputs) : ResolveOutcome :=
  let gapSize := inputs.gap
  match pyDiv (size + gapSize) (inputs.minFingerSize + gapSize) with
  | none => .err
  | some q =>
    let maxNumFingersAndNotches := pythonInt q
    let base := pythonInt ((maxNumFingersAndNotches : ℚ) / 2)
    let counts : ℤ × ℤ :=
      match inputs.placementType with
      | .fingersOutside =>
        if maxNumFingersAndNotches % 2 = 1 then (base + 1, base) else (base, base - 1)
      | .notchesOutside =>
        if maxNumFingersAndNotches % 2 = 1 then (base, base + 1) else (base - 1, base)
      | _ => (base, base)
    let numFingers := counts.1
    let numNotches := counts.2
    if numFingers + numNotches = 0 then .infeasible
    else
      let numGaps := numFingers + numNotches - 1
      let totalGapSize := (numGaps : ℚ) * gapSize
      match pyDiv (size - totalGapSize) ((numFingers + numNotches : ℤ) : ℚ) with
      | none => .err
      | some fingerSize => .ok numFingers numNotches fingerSize fingerSize

/-- `geometry.py` lines 217-235: dynamic count, fixed notch size. -/
def resolveDynamicFixedNotch (size : ℚ) (inputs : JointInputs) : ResolveOutcome :=
  let gapSize := inputs.gap
  let notchSize := inputs.fixedNotchSize
  let extraNotch : ℤ :=
    match inputs.placementType with
    | .fingersOutside => -1
    | .notchesOutside => 1
    | _ => 0
  match pyDiv (size - (extraNotch : ℚ) * (notchSize + gapSize) + gapSize)
      (notchSize + inputs.minFingerSize + 2 * gapSize) with
  | none => .err
  | some q =>
    let numFingers := pythonInt q
    let numNotches := numFingers + extraNotch
    if numFingers = 0 then .infeasible
    else
      let numGaps := numFingers + numNotches - 1
      let totalGapSize := (numGaps : ℚ) * gapSize
      match pyDiv (size - totalGapSize - (numNotches : ℚ) * notchSize) ((numFingers : ℤ) : ℚ) with
      | none => .err
      | some fingerSize => .ok numFingers numNotches fingerSize notchSize

/-- `geometry.py` lines 238-256: dynamic count, fixed finger size. -/
def resolveDynamicFixedFinger (size : ℚ) (inputs : JointInputs) : ResolveOutcome :=
  let gapSize := inputs.gap
  let fingerSize := inputs.fixedFingerSize
  let extraFinger : ℤ :=
    match inputs.placementType with
    | .fingersOutside => 1
    | .notchesOutside => -1
    | _ => 0
  match pyDiv (size - (extraFinger : ℚ) * (fingerSize + gapSize) + gapSize)
      (fingerSize + inputs.minNotchSize + 2 * gapSize) with
  | none => .err
  | some q =>
    let numNotches := pythonInt q
    let numFingers := numNotches + extraFinger
    if numNotches = 0 then .infeasible
    else
      let numGaps := numFingers + numNotches - 1
      let totalGapSize := (numGaps : ℚ) * gapSize
      match pyDiv (size - totalGapSize - (numFingers : ℚ) * fingerSize) ((numNotches : ℤ) : ℚ) with
      | none => .err
      | some notchSize => .ok numFingers numNotches fingerSize notchSize

/-- `geometry.py` lines 164-256: dispatch over the six
`(isNumberOfFingersFixed, dynamicSizeType)` branches. -/
def resolveCounts (size : ℚ) (inputs : JointInputs) : ResolveOutcome :=
  if inputs.isNumberOfFingersFixed then
    resolveFixedCount size inputs
  else
    match inputs.dynamicSizeType with
    | .equalNotchAndFingerSize => resolveDynamicEqual size inputs
    | .fixedNotchSize => resolveDynamicFixedNotch size inputs
    | .fixedFingerSize => resolveDynamicFixedFinger size inputs

/-- `geometry.py` line 259: `epsilon = 0.00001`. -/
def epsilon : ℚ := 1 / 100000

/-- Result of `defineToolBodyDimensions`: a Python runtime error, the
`return None, None` rejection, or the two tool slice lists
`(sliceCenterStart, sliceThickness)`. -/
inductive DimsResult
  | err
  | infeasible
  | ok (fingerToolDimensions notchToolDimensions : List (ℚ × ℚ))
deriving DecidableEq, Repr

/-- `geometry.py` lines 154-283: `defineToolBodyDimensions`, with the
count/size branches factored into `resolveCounts`; lines 258-266 are the
sanity check, lines 268-283 the slice construction. -/
def defineToolBodyDimensions (size : ℚ) (inputs : JointInputs) : DimsResult :=
  match resolveCounts size inputs with
  | .err => .err
  | .infeasible => .infeasible
  | .ok numFingers numNotches fingerSize notchSize =>
    let gapSize := inputs.gap
    if fingerSize ≤ epsilon ∨ notchSize ≤ epsilon
        ∨ numFingers < 0 ∨ numNotches < 0
        ∨ numFingers + numNotches = 1
        ∨ fingerSize * (numFingers : ℚ) + notchSize * (numNotches : ℚ)
            + ((numFingers + numNotches - 1 : ℤ) : ℚ) * gapSize - epsilon > size then
      .infeasible
    else
      let starts : ℚ × ℚ :=
        if inputs.placementType = .fingersOutside
            ∨ inputs.placementType = .sameNumberStartFinger then
          (0, fingerSize + gapSize)
        else
          (notchSize + gapSize, 0)
      let fingerStart := starts.1
      let notchStart := starts.2
      let spacing := fingerSize + notchSize + 2 * gapSize
      let fingerToolDimensions := (List.range numNotches.toNat).map
        (fun i : ℕ => (notchStart + (i : ℚ) * spacing - gapSize, notchSize + 2 * gapSize))
      let notchToolDimensions := (List.range numFingers.toNat).map
        (fun i : ℕ => (fingerStart + (i : ℚ) * spacing - gapSize, fingerSize + 2 * gapSize))
      .ok fingerToolDimensions notchToolDimensions

/-- Result of the planning call `createToolBodies` (`geometry.py` lines
133-151): `True` (no cut needed), `False` (no feasible layout), a Python
runtime error, or the two tool bodies, abstracted by their slice lists. -/
inductive ToolBodiesResult
  | noCutNeeded
  | cutImpossible
  | err
  | tools (fingerToolBody notchToolBody : List (ℚ × ℚ))
deriving DecidableEq, Repr

/-- `geometry.py` lines 139-151: the planner's control flow after the
overlap has been measured; `height` is `bb.maxPoint.z - bb.minPoint.z` of
the overlap in local coordinates, and the opaque BRep construction of the
two tool bodies is abstracted by the slice lists that drive it. -/
def createToolBodies (height : ℚ) (inputs : JointInputs) : ToolBodiesResult :=
  if height ≤ 0 then .noCutNeeded
  else
    match defineToolBodyDimensions height inputs with
    | .err => .err
    | .infeasible => .cutImpossible
    | .ok fingerDimensions notchDimensions => .tools fingerDimensions notchDimensions

/-- `geometry.py` lines 112-115: the lateral scale factor of
`createToolBody`. -/
def createToolBodyScaleFactor (length width gapToPart : ℚ) : ℚ :=
  max ((length + 2 * gapToPart) / length) ((width + 2 * gapToPart) / width)

/-- `geometry.py` lines 116-120: the matrix passed to `setWithArray`,
row-major homogeneous form. -/
def createToolBodyScaleMatrix (length width gapToPart : ℚ) : Matrix (Fin 4) (Fin 4) ℚ :=
  let s := createToolBodyScaleFactor length width gapToPart
  Matrix.of ![![s, 0, 0, 0], ![0, s, 0, 0], ![0, 0, 1, 0], ![0, 0, 0, 1]]

/-- Action of a row-major homogeneous 4x4 matrix on a 3D point. -/
def applyHomogeneous (m : Matrix (Fin 4) (Fin 4) ℚ) (p : ℚ × ℚ × ℚ) : ℚ × ℚ × ℚ :=
  (m 0 0 * p.1 + m 0 1 * p.2.1 + m 0 2 * p.2.2 + m 0 3,
   m 1 0 * p.1 + m 1 1 * p.2.1 + m 1 2 * p.2.2 + m 1 3,
   m 2 0 * p.1 + m 2 1 * p.2.1 + m 2 2 * p.2.2 + m 2 3)

/-- `geometry.py` line 80: `slack = 1`, the rounding slack (one centimeter
in the working unit) that `createToolBody` adds to both lateral dimensions. -/
def createToolBodySlack : ℚ := 1

/-- `geometry.py` line 81: `length = maxx - minx + slack`, the slack-padded
extent of the body's bounding box along the local x axis. -/
def createToolBodyLength (minx maxx : ℚ) : ℚ := maxx - minx + createToolBodySlack

/-- `geometry.py` line 82: `width = maxy - miny + slack`, the slack-padded
extent of the body's bounding box along the local y axis. -/
def createToolBodyWidth (miny maxy : ℚ) : ℚ := maxy - miny + createToolBodySlack

/-- `geometry.py` lines 112-115 as actually invoked: the scale factor is
computed from the slack-padded `length` and `width` of lines 80-82, as a
function of the bounding-box coordinates read at lines 75-77. -/
def createToolBodyAppliedScaleFactor (minx maxx miny maxy gapToPart : ℚ) : ℚ :=
  createToolBodyScaleFactor (createToolBodyLength minx maxx)
    (createToolBodyWidth miny maxy) gapToPart

/-- `geometry.py` lines 116-120 as actually invoked: the matrix passed to
`setWithArray`, with the slack-padded dimensions of lines 80-82. -/
def createToolBodyAppliedScaleMatrix (minx maxx miny maxy gapToPart : ℚ) :
    Matrix (Fin 4) (Fin 4) ℚ :=
  createToolBodyScaleMatrix (createToolBodyLength minx maxx)
    (createToolBodyWidth miny maxy) gapToPart

/-- The start offsets `(fingerStart, notchStart)` of the first finger and
first notch (`geometry.py` lines 268-274), as a function of the placement. -/
def startOffsets (pl : PlacementType) (fingerSize notchSize gapSize : ℚ) : ℚ × ℚ :=
  if pl = .fingersOutside ∨ pl = .sameNumberStartFinger then
    (0, fingerSize + gapSize)
  else
    (notchSize + gapSize, 0)

/-- The result of swapping the finger and notch roles in a policy: the
placement is reflected, the size mode's fixed side is exchanged, and the
fixed and minimal finger/notch lengths are exchanged. -/
def swapPolicy (p : JointInputs) : JointInputs :=
  { p with
    placementType :=
      match p.placementType with
      | .fingersOutside => .notchesOutside
      | .notchesOutside => .fingersOutside
      | .sameNumberStartFinger => .sameNumberStartNotch
      | .sameNumberStartNotch => .sameNumberStartFinger
    dynamicSizeType :=
      match p.dynamicSizeType with
      | .fixedNotchSize => .fixedFingerSize
      | .fixedFingerSize => .fixedNotchSize
      | .equalNotchAndFingerSize => .equalNotchAndFingerSize
    minFingerSize := p.minNotchSize
    minNotchSize := p.minFingerSize
    fixedNotchSize := p.fixedFingerSize
    fixedFingerSize := p.fixedNotchSize }

/-- Exchange of the finger and notch roles in a resolution outcome. -/
def mirrorOutcome : ResolveOutcome → ResolveOutcome
  | .ok nf nn fs ns => .ok nn nf ns fs
  | r => r

/-- Exchange of the finger-tool and notch-tool slice lists. -/
def mirrorDims : DimsResult → DimsResult
  | .ok ft nt => .ok nt ft
  | r => r

/-! ### Helper lemmas -/

theorem pythonInt_of_nonneg {q : ℚ} (h : 0 ≤ q) : pythonInt q = ⌊q⌋ := by
  simp [pythonInt, not_lt.mpr h]

theorem pythonInt_nonneg {q : ℚ} (h : 0 ≤ q) : 0 ≤ pythonInt q := by
  rw [pythonInt_of_nonneg h]; exact Int.floor_nonneg.mpr h

theorem pyDiv_eq_some {a b c : ℚ} : pyDiv a b = some c ↔ b ≠ 0 ∧ a / b = c := by
  unfold pyDiv
  split_ifs with hb
  · simp [hb]
  · simp [hb]

/-- Inversion on a successful `defineToolBodyDimensions`: the resolved
counts and sizes passed the sanity check of lines 258-266, and the slice
lists are the arithmetic progressions of lines 276-283. -/
theorem define_ok_elim {size : ℚ} {p : JointInputs} {ft nt : List (ℚ × ℚ)}
    (h : defineToolBodyDimensions size p = .ok ft nt) :
    ∃ nf nn fs ns, resolveCounts size p = .ok nf nn fs ns ∧
      epsilon < fs ∧ epsilon < ns ∧ 0 ≤ nf ∧ 0 ≤ nn ∧ nf + nn ≠ 1 ∧
      fs * (nf : ℚ) + ns * (nn : ℚ) + ((nf + nn - 1 : ℤ) : ℚ) * p.gap ≤ size + epsilon ∧
      ft = (List.range nn.toNat).map (fun i : ℕ =>
        ((startOffsets p.placementType fs ns p.gap).2
          + (i : ℚ) * (fs + ns + 2 * p.gap) - p.gap, ns + 2 * p.gap)) ∧
      nt = (List.range nf.toNat).map (fun i : ℕ =>
        ((startOffsets p.placementType fs ns p.gap).1
          + (i : ℚ) * (fs + ns + 2 * p.gap) - p.gap, fs + 2 * p.gap)) := by
  unfold defineToolBodyDimensions at h
  cases hrc : resolveCounts size p with
  | err => rw [hrc] at h; exact absurd h (by simp)
  | infeasible => rw [hrc] at h; exact absurd h (by simp)
  | ok nf nn fs ns =>
    rw [hrc] at h
    simp only at h
    split_ifs at h with hguard hpl
    all_goals (
      push_neg at hguard
      obtain ⟨h1, h2, h3, h4, h5, h6⟩ := hguard
      simp only [DimsResult.ok.injEq] at h
      refine ⟨nf, nn, fs, ns, rfl, h1, h2, h3, h4, h5, by linarith, ?_, ?_⟩)
    · rw [← h.1]; simp [startOffsets, hpl]
    · rw [← h.2]; simp [startOffsets, hpl]
    · rw [← h.1]; simp [startOffsets, hpl]
    · rw [← h.2]; simp [startOffsets, hpl]

/-! ### Claim theorems -/

/-- C1: for every size > 0 and every policy on which layout resolution
returns a concrete result, in all six branches the resolved finger and
notch lengths are each greater than ε = 1e-5, both counts are ≥ 0, and
`fingerLength·numFingers + notchLength·numNotches + (numFingers+numNotches−1)·gap
≤ size + ε`. -/
theorem claim1_layout_result_validated (size : ℚ) (p : JointInputs)
    (ft nt : List (ℚ × ℚ)) (_hsize : 0 < size)
    (h : defineToolBodyDimensions size p = .ok ft nt) :
    ∃ nf nn fs ns, resolveCounts size p = .ok nf nn fs ns ∧
      epsilon < fs ∧ epsilon < ns ∧ 0 ≤ nf ∧ 0 ≤ nn ∧
      fs * (nf : ℚ) + ns * (nn : ℚ) + ((nf + nn - 1 : ℤ) : ℚ) * p.gap ≤ size + epsilon := by
  obtain ⟨nf, nn, fs, ns, hrc, h1, h2, h3, h4, _, h6, _, _⟩ := define_ok_elim h
  exact ⟨nf, nn, fs, ns, hrc, h1, h2, h3, h4, h6⟩

/-- Witness for C1 at size 100, fixed finger count 5, equal sizes, gap 0,
fingers outside. -/
theorem claim1_witness :
    0 < (100 : ℚ) ∧
    defineToolBodyDimensions 100
      { placementType := .fingersOutside
        dynamicSizeType := .equalNotchAndFingerSize
        minFingerSize := 2, minNotchSize := 2
        fixedNotchSize := 2, fixedFingerSize := 2
        isNumberOfFingersFixed := true
        fixedNumFingers := 5, gap := 0 } =
      .ok [(100/9, 100/9), (100/3, 100/9), (500/9, 100/9), (700/9, 100/9)]
        [(0, 100/9), (200/9, 100/9), (400/9, 100/9), (200/3, 100/9), (800/9, 100/9)] ∧
    (∃ nf nn fs ns,
      resolveCounts 100
        { placementType := .fingersOutside
          dynamicSizeType := .equalNotchAndFingerSize
          minFingerSize := 2, minNotchSize := 2
          fixedNotchSize := 2, fixedFingerSize := 2
          isNumberOfFingersFixed := true
          fixedNumFingers := 5, gap := 0 } = .ok nf nn fs ns ∧
      epsilon < fs ∧ epsilon < ns ∧ 0 ≤ nf ∧ 0 ≤ nn ∧
      fs * (nf : ℚ) + ns * (nn : ℚ) + ((nf + nn - 1 : ℤ) : ℚ) * 0 ≤ 100 + epsilon) := by
  refine ⟨by norm_num, ?_, ?_⟩
  · norm_num [defineToolBodyDimensions, resolveCounts, resolveFixedCount, pyDiv, epsilon]
    norm_num [show Int.toNat 4 = 4 from rfl, show Int.toNat 5 = 5 from rfl, List.range_succ]
  · exact claim1_layout_result_validated 100 _
      [(100/9, 100/9), (100/3, 100/9), (500/9, 100/9), (700/9, 100/9)]
      [(0, 100/9), (200/9, 100/9), (400/9, 100/9), (200/3, 100/9), (800/9, 100/9)]
      (by norm_num)
      (by
        norm_num [defineToolBodyDimensions, resolveCounts, resolveFixedCount, pyDiv, epsilon]
        norm_num [show Int.toNat 4 = 4 from rfl, show Int.toNat 5 = 5 from rfl,
          List.range_succ])

/-- C3: for every concrete layout result, finger-first placements put
`fingerStart = 0` and `notchStart = fingerLength + gap`, the other
placements put `fingerStart = notchLength + gap` and `notchStart = 0`, and
with `spacing = fingerLength + notchLength + 2·gap` the finger-tool slices
are `(notchStart + i·spacing − gap, notchLength + 2·gap)` for
`i ∈ [0, numNotches)` and the notch-tool slices are
`(fingerStart + i·spacing − gap, fingerLength + 2·gap)` for
`i ∈ [0, numFingers)`. -/
theorem claim3_slice_positions (size : ℚ) (p : JointInputs) (ft nt : List (ℚ × ℚ))
    (h : defineToolBodyDimensions size p = .ok ft nt) :
    ∃ nf nn fs ns, resolveCounts size p = .ok nf nn fs ns ∧
      ((p.placementType = .fingersOutside ∨ p.placementType = .sameNumberStartFinger) →
        (startOffsets p.placementType fs ns p.gap).1 = 0 ∧
        (startOffsets p.placementType fs ns p.gap).2 = fs + p.gap) ∧
      (¬(p.placementType = .fingersOutside ∨ p.placementType = .sameNumberStartFinger) →
        (startOffsets p.placementType fs ns p.gap).1 = ns + p.gap ∧
        (startOffsets p.placementType fs ns p.gap).2 = 0) ∧
      ft = (List.range nn.toNat).map (fun i : ℕ =>
        ((startOffsets p.placementType fs ns p.gap).2
          + (i : ℚ) * (fs + ns + 2 * p.gap) - p.gap, ns + 2 * p.gap)) ∧
      nt = (List.range nf.toNat).map (fun i : ℕ =>
        ((startOffsets p.placementType fs ns p.gap).1
          + (i : ℚ) * (fs + ns + 2 * p.gap) - p.gap, fs + 2 * p.gap)) := by
  obtain ⟨nf, nn, fs, ns, hrc, _, _, _, _, _, _, hft, hnt⟩ := define_ok_elim h
  exact ⟨nf, nn, fs, ns, hrc,
    fun hpl => by simp [startOffsets, hpl],
    fun hpl => by simp [startOffsets, hpl],
    hft, hnt⟩

/-- Witness for C3 at size 10, dynamic equal sizes, minimal finger length 3,
gap 0, same number of fingers and notches starting with a finger. -/
theorem claim3_witness :
    defineToolBodyDimensions 10
      { placementType := .sameNumberStartFinger
        dynamicSizeType := .equalNotchAndFingerSize
        minFingerSize := 3, minNotchSize := 2
        fixedNotchSize := 2, fixedFingerSize := 2
        isNumberOfFingersFixed := false
        fixedNumFingers := 3, gap := 0 } = .ok [(5, 5)] [(0, 5)] ∧
    (∃ nf nn fs ns,
      resolveCounts 10
        { placementType := .sameNumberStartFinger
          dynamicSizeType := .equalNotchAndFingerSize
          minFingerSize := 3, minNotchSize := 2
          fixedNotchSize := 2, fixedFingerSize := 2
          isNumberOfFingersFixed := false
          fixedNumFingers := 3, gap := 0 } = .ok nf nn fs ns ∧
      ((PlacementType.sameNumberStartFinger = PlacementType.fingersOutside
          ∨ PlacementType.sameNumberStartFinger = PlacementType.sameNumberStartFinger) →
        (startOffsets .sameNumberStartFinger fs ns 0).1 = 0 ∧
        (startOffsets .sameNumberStartFinger fs ns 0).2 = fs + 0) ∧
      (¬(PlacementType.sameNumberStartFinger = PlacementType.fingersOutside
          ∨ PlacementType.sameNumberStartFinger = PlacementType.sameNumberStartFinger) →
        (startOffsets .sameNumberStartFinger fs ns 0).1 = ns + 0 ∧
        (startOffsets .sameNumberStartFinger fs ns 0).2 = 0) ∧
      [((5 : ℚ), (5 : ℚ))] = (List.range nn.toNat).map (fun i : ℕ =>
        ((startOffsets .sameNumberStartFinger fs ns 0).2
          + (i : ℚ) * (fs + ns + 2 * 0) - 0, ns + 2 * 0)) ∧
      [((0 : ℚ), (5 : ℚ))] = (List.range nf.toNat).map (fun i : ℕ =>
        ((startOffsets .sameNumberStartFinger fs ns 0).1
          + (i : ℚ) * (fs + ns + 2 * 0) - 0, fs + 2 * 0))) := by
  have hev : defineToolBodyDimensions 10
      { placementType := .sameNumberStartFinger
        dynamicSizeType := .equalNotchAndFingerSize
        minFingerSize := 3, minNotchSize := 2
        fixedNotchSize := 2, fixedFingerSize := 2
        isNumberOfFingersFixed := false
        fixedNumFingers := 3, gap := 0 } = .ok [(5, 5)] [(0, 5)] := by
    norm_num [defineToolBodyDimensions, resolveCounts, resolveDynamicEqual, pyDiv,
      pythonInt, epsilon]
    norm_num [show Int.toNat 1 = 1 from rfl, List.range_succ]
  exact ⟨hev, claim3_slice_positions 10 _ [(5, 5)] [(0, 5)] hev⟩

/-- C6: whenever the measured extent of the overlap along the local z-axis
is ≤ 0, the planning call returns the no-cut-needed outcome, for every
policy, without reaching layout resolution or tool-body construction. -/
theorem claim6_no_cut_needed (height : ℚ) (p : JointInputs) (h : height ≤ 0) :
    createToolBodies height p = .noCutNeeded := by
  simp [createToolBodies, h]

/-- Witness for C6 at height 0. -/
theorem claim6_witness :
    (0 : ℚ) ≤ 0 ∧
    createToolBodies 0
      { placementType := .fingersOutside
        dynamicSizeType := .equalNotchAndFingerSize
        minFingerSize := 2, minNotchSize := 2
        fixedNotchSize := 2, fixedFingerSize := 2
        isNumberOfFingersFixed := false
        fixedNumFingers := 3, gap := 0 } = .noCutNeeded :=
  ⟨le_refl 0, claim6_no_cut_needed 0 _ (le_refl 0)⟩

/-- C9: the claim is false as stated. For an overlap whose lateral bounding
box is the unit square (raw extents 1 by 1 along local x and y) and
gapToPart = 1, the program computes the factor from the slack-padded
dimensions of `geometry.py` lines 80-82 (extent + 1 = 2 each), giving
factor (2 + 2)/2 = 2, whereas the claim's formula over the raw lateral
extents of the overlap gives (1 + 2)/1 = 3. -/
theorem claim9_counterexample :
    createToolBodyAppliedScaleFactor 0 1 0 1 1 = 2 ∧
    max ((((1 : ℚ) - 0) + 2 * 1) / ((1 : ℚ) - 0)) ((((1 : ℚ) - 0) + 2 * 1) / ((1 : ℚ) - 0)) = 3 ∧
    createToolBodyAppliedScaleFactor 0 1 0 1 1 ≠
      max ((((1 : ℚ) - 0) + 2 * 1) / ((1 : ℚ) - 0)) ((((1 : ℚ) - 0) + 2 * 1) / ((1 : ℚ) - 0)) := by
  refine ⟨?_, ?_, ?_⟩ <;>
    norm_num [createToolBodyAppliedScaleFactor, createToolBodyScaleFactor,
      createToolBodyLength, createToolBodyWidth, createToolBodySlack]

/-- C9 (amended): after clipping, the builder applies a single scale
transform, uniform in x and y and identity in z, fixing the local z-axis
through the frame origin (by the frame construction the overlap's lateral
bounding-box center, not in general the clipped body's own center), with
factor the larger of `(length+2·gapToPart)/length` and
`(width+2·gapToPart)/width`, where `length` and `width` are the lateral
bounding-box extents along local x and y each padded by the 1 cm slack of
`geometry.py` lines 80-82. -/
theorem claim9_amended (minx maxx miny maxy gapToPart x y z : ℚ) :
    applyHomogeneous (createToolBodyAppliedScaleMatrix minx maxx miny maxy gapToPart) (x, y, z) =
      (createToolBodyAppliedScaleFactor minx maxx miny maxy gapToPart * x,
       createToolBodyAppliedScaleFactor minx maxx miny maxy gapToPart * y, z) ∧
    createToolBodyAppliedScaleFactor minx maxx miny maxy gapToPart =
      max ((((maxx - minx) + 1) + 2 * gapToPart) / ((maxx - minx) + 1))
        ((((maxy - miny) + 1) + 2 * gapToPart) / ((maxy - miny) + 1)) ∧
    applyHomogeneous (createToolBodyAppliedScaleMatrix minx maxx miny maxy gapToPart) (0, 0, z) =
      (0, 0, z) := by
  refine ⟨?_, ?_, ?_⟩
  · simp [applyHomogeneous, createToolBodyAppliedScaleMatrix, createToolBodyScaleMatrix,
      createToolBodyAppliedScaleFactor,
      Matrix.of_apply, Matrix.cons_val_zero, Matrix.cons_val_one, Matrix.head_cons,
      Matrix.cons_val_two, Matrix.cons_val_three, Matrix.vecTail, Matrix.vecHead]
  · simp [createToolBodyAppliedScaleFactor, createToolBodyScaleFactor,
      createToolBodyLength, createToolBodyWidth, createToolBodySlack]
  · simp [applyHomogeneous, createToolBodyAppliedScaleMatrix, createToolBodyScaleMatrix,
      Matrix.of_apply, Matrix.cons_val_zero, Matrix.cons_val_one, Matrix.head_cons,
      Matrix.cons_val_two, Matrix.cons_val_three, Matrix.vecTail, Matrix.vecHead]

/-- C2: in the dynamic-count EqualSize branch, for every size > 0, gap ≥ 0
and minFingerLength with minFingerLength + gap > 0, the solver computes
`maxCount = ⌊(size+gap)/(minFingerLength+gap)⌋`, sets
`numFingers = numNotches = ⌊maxCount/2⌋`, adjusts by one unit according to
the placement and `maxCount`'s parity (FingersOutside: +1 finger if odd,
else −1 notch; NotchesOutside: +1 notch if odd, else −1 finger; same-number
placements unchanged), returns `Infeasible` when the total count is 0, and
otherwise sets both lengths to
`(size − (numFingers+numNotches−1)·gap)/(numFingers+numNotches)`. -/
theorem claim2_dynamic_equal_branch (size : ℚ) (p : JointInputs)
    (hfix : p.isNumberOfFingersFixed = false)
    (hmode : p.dynamicSizeType = .equalNotchAndFingerSize)
    (hsize : 0 < size) (hgap : 0 ≤ p.gap) (hden : 0 < p.minFingerSize + p.gap) :
    resolveCounts size p =
      (let maxCount : ℤ := ⌊(size + p.gap) / (p.minFingerSize + p.gap)⌋
       let base : ℤ := ⌊(maxCount : ℚ) / 2⌋
       let counts : ℤ × ℤ :=
         match p.placementType with
         | .fingersOutside => if maxCount % 2 = 1 then (base + 1, base) else (base, base - 1)
         | .notchesOutside => if maxCount % 2 = 1 then (base, base + 1) else (base - 1, base)
         | _ => (base, base)
       if counts.1 + counts.2 = 0 then .infeasible
       else .ok counts.1 counts.2
         ((size - ((counts.1 + counts.2 - 1 : ℤ) : ℚ) * p.gap) / ((counts.1 + counts.2 : ℤ) : ℚ))
         ((size - ((counts.1 + counts.2 - 1 : ℤ) : ℚ) * p.gap) / ((counts.1 + counts.2 : ℤ) : ℚ))) := by
  have hne : p.minFingerSize + p.gap ≠ 0 := ne_of_gt hden
  have hq : 0 ≤ (size + p.gap) / (p.minFingerSize + p.gap) :=
    div_nonneg (by linarith) hden.le
  have hfl : (0 : ℚ) ≤ ((⌊(size + p.gap) / (p.minFingerSize + p.gap)⌋ : ℤ) : ℚ) / 2 := by
    have : (0 : ℤ) ≤ ⌊(size + p.gap) / (p.minFingerSize + p.gap)⌋ := Int.floor_nonneg.mpr hq
    positivity
  unfold resolveCounts
  rw [hfix]
  simp only [Bool.false_eq_true, if_false, hmode]
  unfold resolveDynamicEqual
  simp only [pyDiv, if_neg hne]
  rw [pythonInt_of_nonneg hq, pythonInt_of_nonneg hfl]
  cases hpl : p.placementType <;>
    (dsimp only
     split_ifs with h1 h2 h3 h4 h5 h6 <;>
       first
       | rfl
       | (exfalso; exact h1 (by exact_mod_cast h2))
       | (exfalso; exact h2 (by exact_mod_cast h3))
       | (exfalso; exact h4 (by exact_mod_cast h5))
       | (exfalso; exact h3 (by exact_mod_cast h4)))

/-- Witness for C2 at size 10, minimal finger length 3, gap 0, same number
of fingers and notches starting with a finger: maxCount = 3 is odd, both
counts stay at 1, and both lengths are 5. -/
theorem claim2_witness :
    ({ placementType := .sameNumberStartFinger
       dynamicSizeType := .equalNotchAndFingerSize
       minFingerSize := 3, minNotchSize := 2
       fixedNotchSize := 2, fixedFingerSize := 2
       isNumberOfFingersFixed := false
       fixedNumFingers := 3, gap := 0 } : JointInputs).isNumberOfFingersFixed = false ∧
    (0 : ℚ) < 10 ∧ (0 : ℚ) ≤ 0 ∧ (0 : ℚ) < 3 + 0 ∧
    resolveCounts 10
      { placementType := .sameNumberStartFinger
        dynamicSizeType := .equalNotchAndFingerSize
        minFingerSize := 3, minNotchSize := 2
        fixedNotchSize := 2, fixedFingerSize := 2
        isNumberOfFingersFixed := false
        fixedNumFingers := 3, gap := 0 } =
      (let maxCount : ℤ := ⌊((10 : ℚ) + 0) / (3 + 0)⌋
       let base : ℤ := ⌊(maxCount : ℚ) / 2⌋
       let counts : ℤ × ℤ := (base, base)
       if counts.1 + counts.2 = 0 then .infeasible
       else .ok counts.1 counts.2
         ((10 - ((counts.1 + counts.2 - 1 : ℤ) : ℚ) * 0) / ((counts.1 + counts.2 : ℤ) : ℚ))
         ((10 - ((counts.1 + counts.2 - 1 : ℤ) : ℚ) * 0) / ((counts.1 + counts.2 : ℤ) : ℚ))) :=
  ⟨rfl, by norm_num, le_refl 0, by norm_num,
   claim2_dynamic_equal_branch 10 _ rfl rfl (by norm_num) (le_refl 0) (by norm_num)⟩

/-! ### C4: totality of layout resolution -/

theorem resolveFixedCount_ne_err {size : ℚ} {p : JointInputs}
    (hcnt : 1 ≤ p.fixedNumFingers)
    (hexc : ¬(p.dynamicSizeType = .fixedFingerSize ∧ p.placementType = .fingersOutside
              ∧ p.fixedNumFingers = 1)) :
    resolveFixedCount size p ≠ .err := by
  push_neg at hexc
  obtain ⟨pt, dt, mf, mn, fn, ff, fix, cnt, g⟩ := p
  simp only at hcnt hexc
  unfold resolveFixedCount
  cases dt <;> cases pt <;> simp only [pyDiv] <;> split_ifs with h1 <;>
    first
    | (exfalso; norm_cast at h1; omega)
    | (exfalso; have h2 := hexc rfl rfl; norm_cast at h1; omega)
    | simp

theorem resolveDynamicEqual_ne_err {size : ℚ} {p : JointInputs}
    (hne : p.minFingerSize + p.gap ≠ 0) : resolveDynamicEqual size p ≠ .err := by
  unfold resolveDynamicEqual
  simp only [pyDiv]
  cases hpl : p.placementType
  all_goals (
    split_ifs with h1
    · exact absurd h1 hne
    · dsimp only
      split_ifs with h2 h3 h4 h5 h6 <;>
        first
        | (exfalso; exact h2 (by exact_mod_cast h3))
        | (exfalso; exact h3 (by exact_mod_cast h4))
        | (exfalso; exact h5 (by exact_mod_cast h6))
        | simp)

theorem resolveDynamicFixedNotch_ne_err {size : ℚ} {p : JointInputs}
    (hne : p.fixedNotchSize + p.minFingerSize + 2 * p.gap ≠ 0) :
    resolveDynamicFixedNotch size p ≠ .err := by
  unfold resolveDynamicFixedNotch
  simp only [pyDiv]
  cases hpl : p.placementType
  all_goals (
    split_ifs with h1
    · exact absurd h1 hne
    · dsimp only
      split_ifs with h2 h3 h4 h5 h6 <;>
        first
        | (exfalso; exact h2 (by exact_mod_cast h3))
        | (exfalso; exact h3 (by exact_mod_cast h4))
        | (exfalso; exact h5 (by exact_mod_cast h6))
        | simp)

theorem resolveDynamicFixedFinger_ne_err {size : ℚ} {p : JointInputs}
    (hne : p.fixedFingerSize + p.minNotchSize + 2 * p.gap ≠ 0) :
    resolveDynamicFixedFinger size p ≠ .err := by
  unfold resolveDynamicFixedFinger
  simp only [pyDiv]
  cases hpl : p.placementType
  all_goals (
    split_ifs with h1
    · exact absurd h1 hne
    · dsimp only
      split_ifs with h2 h3 h4 h5 h6 <;>
        first
        | (exfalso; exact h2 (by exact_mod_cast h3))
        | (exfalso; exact h3 (by exact_mod_cast h4))
        | (exfalso; exact h5 (by exact_mod_cast h6))
        | simp)

/-- Counterexample to C4 as stated: a well-formed policy (fixed finger
count 1, which the spec's data model allows as a positive integer, with
the fixed-finger-size mode and fingers outside) makes the code divide by
`numNotches = 0`: a `ZeroDivisionError`, not a `LayoutResult`. -/
theorem claim4_counterexample :
    defineToolBodyDimensions 10
      { placementType := .fingersOutside
        dynamicSizeType := .fixedFingerSize
        minFingerSize := 2, minNotchSize := 2
        fixedNotchSize := 2, fixedFingerSize := 2
        isNumberOfFingersFixed := true
        fixedNumFingers := 1, gap := 0 } = .err := by
  norm_num [defineToolBodyDimensions, resolveCounts, resolveFixedCount, pyDiv]

/-- C4 amended: layout resolution reaches a `LayoutResult` without error
for every size and well-formed policy, except exactly when a divisor
vanishes: the fixed-count FixedFingerSize branch with FingersOutside and
`fixedFingerCount = 1` (which divides by `numNotches = 0`), and the
dynamic branches whose size denominator (`minFingerLength + gap`,
`fixedNotchLength + minFingerLength + 2·gap`, or
`fixedFingerLength + minNotchLength + 2·gap`, respectively) is zero. -/
theorem claim4_amended (size : ℚ) (p : JointInputs)
    (hcnt : 1 ≤ p.fixedNumFingers)
    (hexc : ¬(p.isNumberOfFingersFixed = true ∧ p.dynamicSizeType = .fixedFingerSize
              ∧ p.placementType = .fingersOutside ∧ p.fixedNumFingers = 1))
    (hd1 : p.isNumberOfFingersFixed = false → p.dynamicSizeType = .equalNotchAndFingerSize →
            p.minFingerSize + p.gap ≠ 0)
    (hd2 : p.isNumberOfFingersFixed = false → p.dynamicSizeType = .fixedNotchSize →
            p.fixedNotchSize + p.minFingerSize + 2 * p.gap ≠ 0)
    (hd3 : p.isNumberOfFingersFixed = false → p.dynamicSizeType = .fixedFingerSize →
            p.fixedFingerSize + p.minNotchSize + 2 * p.gap ≠ 0) :
    defineToolBodyDimensions size p ≠ .err := by
  have hrc : resolveCounts size p ≠ .err := by
    unfold resolveCounts
    cases hfix : p.isNumberOfFingersFixed with
    | true =>
      simp only [if_true]
      exact resolveFixedCount_ne_err hcnt (by
        intro ⟨ha, hb, hc⟩; exact hexc ⟨hfix, ha, hb, hc⟩)
    | false =>
      simp only [Bool.false_eq_true, if_false]
      cases hdt : p.dynamicSizeType with
      | equalNotchAndFingerSize => exact resolveDynamicEqual_ne_err (hd1 hfix hdt)
      | fixedNotchSize => exact resolveDynamicFixedNotch_ne_err (hd2 hfix hdt)
      | fixedFingerSize => exact resolveDynamicFixedFinger_ne_err (hd3 hfix hdt)
  intro hcontra
  unfold defineToolBodyDimensions at hcontra
  cases hr : resolveCounts size p with
  | err => exact hrc hr
  | infeasible => rw [hr] at hcontra; simp at hcontra
  | ok nf nn fs ns =>
    rw [hr] at hcontra
    simp only at hcontra
    split_ifs at hcontra <;> simp_all

/-- Witness for the amended C4 at a fixed-count equal-size policy. -/
theorem claim4_witness :
    (1 : ℤ) ≤ 3 ∧
    defineToolBodyDimensions 10
      { placementType := .fingersOutside
        dynamicSizeType := .equalNotchAndFingerSize
        minFingerSize := 2, minNotchSize := 2
        fixedNotchSize := 2, fixedFingerSize := 2
        isNumberOfFingersFixed := true
        fixedNumFingers := 3, gap := 0 } ≠ .err :=
  ⟨by norm_num,
   claim4_amended 10 _ (by norm_num) (by simp) (by simp) (by simp) (by simp)⟩

/-! ### C5: the concrete size-100 scenario -/

/-- Counterexample to C5 as stated: at size 100, gap 0, EqualSize, fixed
finger count 5, FingersOutside, the finger-tool slice list has 4 intervals
(one per notch), not 5. -/
theorem claim5_counterexample :
    defineToolBodyDimensions 100
      { placementType := .fingersOutside
        dynamicSizeType := .equalNotchAndFingerSize
        minFingerSize := 2, minNotchSize := 2
        fixedNotchSize := 2, fixedFingerSize := 2
        isNumberOfFingersFixed := true
        fixedNumFingers := 5, gap := 0 } =
      .ok [(100/9, 100/9), (100/3, 100/9), (500/9, 100/9), (700/9, 100/9)]
        [(0, 100/9), (200/9, 100/9), (400/9, 100/9), (200/3, 100/9), (800/9, 100/9)] ∧
    ([((100 : ℚ)/9, (100 : ℚ)/9), (100/3, 100/9), (500/9, 100/9), (700/9, 100/9)]).length ≠ 5 := by
  constructor
  · norm_num [defineToolBodyDimensions, resolveCounts, resolveFixedCount, pyDiv, epsilon]
    norm_num [show Int.toNat 4 = 4 from rfl, show Int.toNat 5 = 5 from rfl, List.range_succ]
  · simp

/-- C5 amended: that input yields `numNotches = 4`,
`fingerLength = notchLength = 100/9`, a finger-tool SliceSet of 4 intervals
of width 100/9 at the positions complementary to the 5 fingers, and a
notch-tool SliceSet of 5 intervals of width 100/9 at the finger positions. -/
theorem claim5_amended :
    resolveCounts 100
      { placementType := .fingersOutside
        dynamicSizeType := .equalNotchAndFingerSize
        minFingerSize := 2, minNotchSize := 2
        fixedNotchSize := 2, fixedFingerSize := 2
        isNumberOfFingersFixed := true
        fixedNumFingers := 5, gap := 0 } = .ok 5 4 (100/9) (100/9) ∧
    defineToolBodyDimensions 100
      { placementType := .fingersOutside
        dynamicSizeType := .equalNotchAndFingerSize
        minFingerSize := 2, minNotchSize := 2
        fixedNotchSize := 2, fixedFingerSize := 2
        isNumberOfFingersFixed := true
        fixedNumFingers := 5, gap := 0 } =
      .ok [(100/9, 100/9), (100/3, 100/9), (500/9, 100/9), (700/9, 100/9)]
        [(0, 100/9), (200/9, 100/9), (400/9, 100/9), (200/3, 100/9), (800/9, 100/9)] := by
  constructor
  · norm_num [resolveCounts, resolveFixedCount, pyDiv]
  · norm_num [defineToolBodyDimensions, resolveCounts, resolveFixedCount, pyDiv, epsilon]
    norm_num [show Int.toNat 4 = 4 from rfl, show Int.toNat 5 = 5 from rfl, List.range_succ]

/-! ### C10: invariants of concrete layouts -/

theorem resolveFixedCount_ok_ge_one {size : ℚ} {p : JointInputs} {nf nn : ℤ} {fs ns : ℚ}
    (h : resolveFixedCount size p = .ok nf nn fs ns)
    (h3 : 0 ≤ nf) (h4 : 0 ≤ nn) (h5 : nf + nn ≠ 1) : 1 ≤ nf ∧ 1 ≤ nn := by
  obtain ⟨pt, dt, mf, mn, fn, ff, fix, cnt, g⟩ := p
  unfold resolveFixedCount at h
  cases dt <;> cases pt <;> simp only [pyDiv] at h <;> split_ifs at h with h1 <;>
    first
    | (simp at h; done)
    | (simp only [ResolveOutcome.ok.injEq] at h
       obtain ⟨e1, e2, e3, e4⟩ := h
       norm_cast at h1
       omega)

theorem resolveDynamicEqual_ok_ge_one {size : ℚ} {p : JointInputs} {nf nn : ℤ} {fs ns : ℚ}
    (h : resolveDynamicEqual size p = .ok nf nn fs ns)
    (h3 : 0 ≤ nf) (h4 : 0 ≤ nn) (h5 : nf + nn ≠ 1) : 1 ≤ nf ∧ 1 ≤ nn := by
  obtain ⟨pt, dt, mf, mn, fn, ff, fix, cnt, g⟩ := p
  unfold resolveDynamicEqual at h
  cases pt
  all_goals (
    simp only [pyDiv] at h
    split_ifs at h with h1
    all_goals first
      | (simp at h; done)
      | (dsimp only at h
         split_ifs at h with h2 h3x h4x h5x h6x <;>
           first
           | (simp at h; done)
           | (simp only [ResolveOutcome.ok.injEq] at h
              obtain ⟨e1, e2, e3, e4⟩ := h
              omega)))

theorem resolveDynamicFixedNotch_ok_ge_one {size : ℚ} {p : JointInputs} {nf nn : ℤ} {fs ns : ℚ}
    (h : resolveDynamicFixedNotch size p = .ok nf nn fs ns)
    (h3 : 0 ≤ nf) (h4 : 0 ≤ nn) (h5 : nf + nn ≠ 1) : 1 ≤ nf ∧ 1 ≤ nn := by
  obtain ⟨pt, dt, mf, mn, fn, ff, fix, cnt, g⟩ := p
  unfold resolveDynamicFixedNotch at h
  cases pt
  all_goals (
    simp only [pyDiv] at h
    split_ifs at h with h1
    all_goals first
      | (simp at h; done)
      | (dsimp only at h
         split_ifs at h with h2 h3x h4x <;>
           first
           | (simp at h; done)
           | (simp only [ResolveOutcome.ok.injEq] at h
              obtain ⟨e1, e2, e3, e4⟩ := h
              omega)))

theorem resolveDynamicFixedFinger_ok_ge_one {size : ℚ} {p : JointInputs} {nf nn : ℤ} {fs ns : ℚ}
    (h : resolveDynamicFixedFinger size p = .ok nf nn fs ns)
    (h3 : 0 ≤ nf) (h4 : 0 ≤ nn) (h5 : nf + nn ≠ 1) : 1 ≤ nf ∧ 1 ≤ nn := by
  obtain ⟨pt, dt, mf, mn, fn, ff, fix, cnt, g⟩ := p
  unfold resolveDynamicFixedFinger at h
  cases pt
  all_goals (
    simp only [pyDiv] at h
    split_ifs at h with h1
    all_goals first
      | (simp at h; done)
      | (dsimp only at h
         split_ifs at h with h2 h3x h4x <;>
           first
           | (simp at h; done)
           | (simp only [ResolveOutcome.ok.injEq] at h
              obtain ⟨e1, e2, e3, e4⟩ := h
              omega)))

theorem resolveCounts_ok_ge_one {size : ℚ} {p : JointInputs} {nf nn : ℤ} {fs ns : ℚ}
    (h : resolveCounts size p = .ok nf nn fs ns)
    (h3 : 0 ≤ nf) (h4 : 0 ≤ nn) (h5 : nf + nn ≠ 1) : 1 ≤ nf ∧ 1 ≤ nn := by
  unfold resolveCounts at h
  split_ifs at h with hfix
  · exact resolveFixedCount_ok_ge_one h h3 h4 h5
  · cases hdt : p.dynamicSizeType <;> rw [hdt] at h
    · exact resolveDynamicFixedNotch_ok_ge_one h h3 h4 h5
    · exact resolveDynamicFixedFinger_ok_ge_one h h3 h4 h5
    · exact resolveDynamicEqual_ok_ge_one h h3 h4 h5



/-- C10: every concrete layout has at least one finger-tool interval and
at least one notch-tool interval (`numFingers ≥ 1` and `numNotches ≥ 1`
after validation), and within each slice list the intervals are pairwise
disjoint, consecutive intervals being separated by exactly the other unit
type's length (the finger length between finger-tool slices, the notch
length between notch-tool slices). -/
theorem claim10_layout_invariants (size : ℚ) (p : JointInputs) (ft nt : List (ℚ × ℚ))
    (hgap : 0 ≤ p.gap) (h : defineToolBodyDimensions size p = .ok ft nt) :
    ∃ nf nn fs ns, resolveCounts size p = .ok nf nn fs ns ∧
      1 ≤ nf ∧ 1 ≤ nn ∧ ft ≠ [] ∧ nt ≠ [] ∧
      (∀ i j : ℕ, ∀ hi : i < ft.length, ∀ hj : j < ft.length, i < j →
        (ft.get ⟨i, hi⟩).1 + (ft.get ⟨i, hi⟩).2 < (ft.get ⟨j, hj⟩).1) ∧
      (∀ i : ℕ, ∀ hi : i + 1 < ft.length,
        (ft.get ⟨i + 1, hi⟩).1
          = (ft.get ⟨i, Nat.lt_of_succ_lt hi⟩).1 + (ft.get ⟨i, Nat.lt_of_succ_lt hi⟩).2 + fs) ∧
      (∀ i j : ℕ, ∀ hi : i < nt.length, ∀ hj : j < nt.length, i < j →
        (nt.get ⟨i, hi⟩).1 + (nt.get ⟨i, hi⟩).2 < (nt.get ⟨j, hj⟩).1) ∧
      (∀ i : ℕ, ∀ hi : i + 1 < nt.length,
        (nt.get ⟨i + 1, hi⟩).1
          = (nt.get ⟨i, Nat.lt_of_succ_lt hi⟩).1 + (nt.get ⟨i, Nat.lt_of_succ_lt hi⟩).2 + ns) := by
  obtain ⟨nf, nn, fs, ns, hrc, h1, h2, h3, h4, h5, h6, hft, hnt⟩ := define_ok_elim h
  obtain ⟨hnf1, hnn1⟩ := resolveCounts_ok_ge_one hrc h3 h4 h5
  have heps : (0 : ℚ) < epsilon := by norm_num [epsilon]
  have hfs : 0 < fs := lt_trans heps h1
  have hns : 0 < ns := lt_trans heps h2
  have hsp : 0 < fs + ns + 2 * p.gap := by linarith
  subst hft
  subst hnt
  refine ⟨nf, nn, fs, ns, hrc, hnf1, hnn1, ?_, ?_, ?_, ?_, ?_, ?_⟩
  · apply List.ne_nil_of_length_pos
    simp only [List.length_map, List.length_range]
    omega
  · apply List.ne_nil_of_length_pos
    simp only [List.length_map, List.length_range]
    omega
  · intro i j hi hj hij
    simp only [List.get_eq_getElem, List.getElem_map, List.getElem_range]
    have hij1 : ((i : ℚ) + 1) ≤ (j : ℚ) := by exact_mod_cast hij
    have hmul : ((i : ℚ) + 1) * (fs + ns + 2 * p.gap) ≤ (j : ℚ) * (fs + ns + 2 * p.gap) :=
      mul_le_mul_of_nonneg_right hij1 hsp.le
    nlinarith [hmul]
  · intro i hi
    simp only [List.get_eq_getElem, List.getElem_map, List.getElem_range]
    push_cast
    ring
  · intro i j hi hj hij
    simp only [List.get_eq_getElem, List.getElem_map, List.getElem_range]
    have hij1 : ((i : ℚ) + 1) ≤ (j : ℚ) := by exact_mod_cast hij
    have hmul : ((i : ℚ) + 1) * (fs + ns + 2 * p.gap) ≤ (j : ℚ) * (fs + ns + 2 * p.gap) :=
      mul_le_mul_of_nonneg_right hij1 hsp.le
    nlinarith [hmul]
  · intro i hi
    simp only [List.get_eq_getElem, List.getElem_map, List.getElem_range]
    push_cast
    ring

/-- Witness for C10 at the size-100 fixed-count-5 equal-size input. -/
theorem claim10_witness :
    (0 : ℚ) ≤ 0 ∧
    defineToolBodyDimensions 100
      { placementType := .fingersOutside
        dynamicSizeType := .equalNotchAndFingerSize
        minFingerSize := 2, minNotchSize := 2
        fixedNotchSize := 2, fixedFingerSize := 2
        isNumberOfFingersFixed := true
        fixedNumFingers := 5, gap := 0 } =
      .ok [(100/9, 100/9), (100/3, 100/9), (500/9, 100/9), (700/9, 100/9)]
        [(0, 100/9), (200/9, 100/9), (400/9, 100/9), (200/3, 100/9), (800/9, 100/9)] ∧
    (∃ nf nn fs ns,
      resolveCounts 100
        { placementType := .fingersOutside
          dynamicSizeType := .equalNotchAndFingerSize
          minFingerSize := 2, minNotchSize := 2
          fixedNotchSize := 2, fixedFingerSize := 2
          isNumberOfFingersFixed := true
          fixedNumFingers := 5, gap := 0 } = .ok nf nn fs ns ∧
      1 ≤ nf ∧ 1 ≤ nn ∧
      ([((100 : ℚ)/9, (100 : ℚ)/9), (100/3, 100/9), (500/9, 100/9), (700/9, 100/9)] :
          List (ℚ × ℚ)) ≠ [] ∧
      ([((0 : ℚ), (100 : ℚ)/9), (200/9, 100/9), (400/9, 100/9), (200/3, 100/9), (800/9, 100/9)] :
          List (ℚ × ℚ)) ≠ [] ∧
      (∀ i j : ℕ,
        ∀ hi : i < ([((100 : ℚ)/9, (100 : ℚ)/9), (100/3, 100/9), (500/9, 100/9),
            (700/9, 100/9)] : List (ℚ × ℚ)).length,
        ∀ hj : j < ([((100 : ℚ)/9, (100 : ℚ)/9), (100/3, 100/9), (500/9, 100/9),
            (700/9, 100/9)] : List (ℚ × ℚ)).length, i < j →
        (([((100 : ℚ)/9, (100 : ℚ)/9), (100/3, 100/9), (500/9, 100/9),
            (700/9, 100/9)] : List (ℚ × ℚ)).get ⟨i, hi⟩).1
          + (([((100 : ℚ)/9, (100 : ℚ)/9), (100/3, 100/9), (500/9, 100/9),
            (700/9, 100/9)] : List (ℚ × ℚ)).get ⟨i, hi⟩).2
          < (([((100 : ℚ)/9, (100 : ℚ)/9), (100/3, 100/9), (500/9, 100/9),
            (700/9, 100/9)] : List (ℚ × ℚ)).get ⟨j, hj⟩).1) ∧
      (∀ i : ℕ,
        ∀ hi : i + 1 < ([((100 : ℚ)/9, (100 : ℚ)/9), (100/3, 100/9), (500/9, 100/9),
            (700/9, 100/9)] : List (ℚ × ℚ)).length,
        (([((100 : ℚ)/9, (100 : ℚ)/9), (100/3, 100/9), (500/9, 100/9),
            (700/9, 100/9)] : List (ℚ × ℚ)).get ⟨i + 1, hi⟩).1
          = (([((100 : ℚ)/9, (100 : ℚ)/9), (100/3, 100/9), (500/9, 100/9),
            (700/9, 100/9)] : List (ℚ × ℚ)).get ⟨i, Nat.lt_of_succ_lt hi⟩).1
          + (([((100 : ℚ)/9, (100 : ℚ)/9), (100/3, 100/9), (500/9, 100/9),
            (700/9, 100/9)] : List (ℚ × ℚ)).get ⟨i, Nat.lt_of_succ_lt hi⟩).2 + fs) ∧
      (∀ i j : ℕ,
        ∀ hi : i < ([((0 : ℚ), (100 : ℚ)/9), (200/9, 100/9), (400/9, 100/9), (200/3, 100/9),
            (800/9, 100/9)] : List (ℚ × ℚ)).length,
        ∀ hj : j < ([((0 : ℚ), (100 : ℚ)/9), (200/9, 100/9), (400/9, 100/9), (200/3, 100/9),
            (800/9, 100/9)] : List (ℚ × ℚ)).length, i < j →
        (([((0 : ℚ), (100 : ℚ)/9), (200/9, 100/9), (400/9, 100/9), (200/3, 100/9),
            (800/9, 100/9)] : List (ℚ × ℚ)).get ⟨i, hi⟩).1
          + (([((0 : ℚ), (100 : ℚ)/9), (200/9, 100/9), (400/9, 100/9), (200/3, 100/9),
            (800/9, 100/9)] : List (ℚ × ℚ)).get ⟨i, hi⟩).2
          < (([((0 : ℚ), (100 : ℚ)/9), (200/9, 100/9), (400/9, 100/9), (200/3, 100/9),
            (800/9, 100/9)] : List (ℚ × ℚ)).get ⟨j, hj⟩).1) ∧
      (∀ i : ℕ,
        ∀ hi : i + 1 < ([((0 : ℚ), (100 : ℚ)/9), (200/9, 100/9), (400/9, 100/9), (200/3, 100/9),
            (800/9, 100/9)] : List (ℚ × ℚ)).length,
        (([((0 : ℚ), (100 : ℚ)/9), (200/9, 100/9), (400/9, 100/9), (200/3, 100/9),
            (800/9, 100/9)] : List (ℚ × ℚ)).get ⟨i + 1, hi⟩).1
          = (([((0 : ℚ), (100 : ℚ)/9), (200/9, 100/9), (400/9, 100/9), (200/3, 100/9),
            (800/9, 100/9)] : List (ℚ × ℚ)).get ⟨i, Nat.lt_of_succ_lt hi⟩).1
          + (([((0 : ℚ), (100 : ℚ)/9), (200/9, 100/9), (400/9, 100/9), (200/3, 100/9),
            (800/9, 100/9)] : List (ℚ × ℚ)).get ⟨i, Nat.lt_of_succ_lt hi⟩).2 + ns)) := by
  have hev : defineToolBodyDimensions 100
      { placementType := .fingersOutside
        dynamicSizeType := .equalNotchAndFingerSize
        minFingerSize := 2, minNotchSize := 2
        fixedNotchSize := 2, fixedFingerSize := 2
        isNumberOfFingersFixed := true
        fixedNumFingers := 5, gap := 0 } =
      .ok [(100/9, 100/9), (100/3, 100/9), (500/9, 100/9), (700/9, 100/9)]
        [(0, 100/9), (200/9, 100/9), (400/9, 100/9), (200/3, 100/9), (800/9, 100/9)] := by
    norm_num [defineToolBodyDimensions, resolveCounts, resolveFixedCount, pyDiv, epsilon]
    norm_num [show Int.toNat 4 = 4 from rfl, show Int.toNat 5 = 5 from rfl, List.range_succ]
  exact ⟨le_refl 0, hev,
    claim10_layout_invariants 100 _
      [(100/9, 100/9), (100/3, 100/9), (500/9, 100/9), (700/9, 100/9)]
      [(0, 100/9), (200/9, 100/9), (400/9, 100/9), (200/3, 100/9), (800/9, 100/9)]
      (le_refl 0) hev⟩

/-! ### C7: gap monotonicity of the dynamic-count branches -/

theorem pythonInt_mono_of_nonneg {a b : ℚ} (ha : 0 ≤ a) (hab : a ≤ b) :
    pythonInt a ≤ pythonInt b := by
  rw [pythonInt_of_nonneg ha, pythonInt_of_nonneg (le_trans ha hab)]
  exact Int.floor_le_floor hab

theorem pythonInt_half_bounds {m : ℤ} (hm : 0 ≤ m) :
    2 * pythonInt ((m : ℚ) / 2) ≤ m ∧ m ≤ 2 * pythonInt ((m : ℚ) / 2) + 1 := by
  have h0 : (0 : ℚ) ≤ (m : ℚ) / 2 := by positivity
  rw [pythonInt_of_nonneg h0]
  constructor
  · have hfl := Int.floor_le ((m : ℚ) / 2)
    have : (2 * ⌊(m : ℚ) / 2⌋ : ℚ) ≤ (m : ℚ) := by push_cast; linarith
    exact_mod_cast this
  · have hfl := Int.lt_floor_add_one ((m : ℚ) / 2)
    have : (m : ℚ) < 2 * ⌊(m : ℚ) / 2⌋ + 2 := by push_cast; linarith
    have h2 : m < 2 * ⌊(m : ℚ) / 2⌋ + 2 := by exact_mod_cast this
    omega

theorem pythonInt_eq_zero_of_mem {q : ℚ} (h1 : -1 < q) (h2 : q < 1) : pythonInt q = 0 := by
  unfold pythonInt
  split_ifs with hq
  · exact Int.ceil_eq_zero_iff.mpr ⟨h1, le_of_lt hq⟩
  · exact Int.floor_eq_zero_iff.mpr ⟨not_lt.mp hq, h2⟩

/-- Monotonicity in the gap of the dynamic EqualSize count
`int((size+gap)/(minFingerSize+gap))` (`geometry.py` line 193). -/
theorem pythonInt_max_mono (size m g1 g2 : ℚ)
    (hsize : 0 < size) (hm : 0 ≤ m) (hg1 : 0 ≤ g1) (hg12 : g1 ≤ g2)
    (hd1 : m + g1 ≠ 0) :
    pythonInt ((size + g2) / (m + g2)) ≤ pythonInt ((size + g1) / (m + g1)) := by
  have hd1pos : 0 < m + g1 := lt_of_le_of_ne (by linarith) (Ne.symm hd1)
  have hd2pos : 0 < m + g2 := by linarith
  rcases le_or_lt m size with hms | hms
  · apply pythonInt_mono_of_nonneg (div_nonneg (by linarith) hd2pos.le)
    rw [div_le_div_iff hd2pos hd1pos]
    nlinarith [mul_nonneg (sub_nonneg.mpr hg12) (sub_nonneg.mpr hms)]
  · have e1 : pythonInt ((size + g1) / (m + g1)) = 0 :=
      pythonInt_eq_zero_of_mem
        (lt_trans (by norm_num) (div_pos (by linarith) hd1pos))
        ((div_lt_one hd1pos).mpr (by linarith))
    have e2 : pythonInt ((size + g2) / (m + g2)) = 0 :=
      pythonInt_eq_zero_of_mem
        (lt_trans (by norm_num) (div_pos (by linarith) hd2pos))
        ((div_lt_one hd2pos).mpr (by linarith))
    omega

/-- Monotonicity in the gap of the dynamic fixed-size counts
`int((size - extra*(n+gap) + gap) / (n + minSize + 2*gap))`
(`geometry.py` lines 229 and 250), on inputs where both counts are
nonzero. -/
theorem pythonInt_ratio_mono (size n m g1 g2 : ℚ) (x : ℤ)
    (hx : x = -1 ∨ x = 0 ∨ x = 1)
    (hsize : 0 < size) (hn : 0 ≤ n) (hm : 0 ≤ m) (hg1 : 0 ≤ g1) (hg12 : g1 ≤ g2)
    (hd1 : n + m + 2 * g1 ≠ 0)
    (hnf1 : pythonInt ((size - (x : ℚ) * (n + g1) + g1) / (n + m + 2 * g1)) ≠ 0) :
    pythonInt ((size - (x : ℚ) * (n + g2) + g2) / (n + m + 2 * g2))
      ≤ pythonInt ((size - (x : ℚ) * (n + g1) + g1) / (n + m + 2 * g1)) := by
  have hd1pos : 0 < n + m + 2 * g1 := lt_of_le_of_ne (by linarith) (Ne.symm hd1)
  have hd2pos : 0 < n + m + 2 * g2 := by linarith
  rcases hx with rfl | rfl | rfl
  · -- extra = -1: numerator size + n + 2*gap
    have e1 : size - ((-1 : ℤ) : ℚ) * (n + g1) + g1 = size + n + 2 * g1 := by push_cast; ring
    have e2 : size - ((-1 : ℤ) : ℚ) * (n + g2) + g2 = size + n + 2 * g2 := by push_cast; ring
    rw [e1] at hnf1 ⊢
    rw [e2]
    rcases le_or_lt m size with hms | hms
    · apply pythonInt_mono_of_nonneg (div_nonneg (by linarith) hd2pos.le)
      rw [div_le_div_iff hd2pos hd1pos]
      nlinarith [mul_nonneg (sub_nonneg.mpr hg12) (sub_nonneg.mpr hms)]
    · exact absurd
        (pythonInt_eq_zero_of_mem
          (lt_trans (by norm_num) (div_pos (by linarith) hd1pos))
          ((div_lt_one hd1pos).mpr (by linarith))) hnf1
  · -- extra = 0: numerator size + gap
    have e1 : size - ((0 : ℤ) : ℚ) * (n + g1) + g1 = size + g1 := by push_cast; ring
    have e2 : size - ((0 : ℤ) : ℚ) * (n + g2) + g2 = size + g2 := by push_cast; ring
    rw [e1] at hnf1 ⊢
    rw [e2]
    have hq1 : 0 ≤ (size + g1) / (n + m + 2 * g1) := div_nonneg (by linarith) hd1pos.le
    have hone : (1 : ℤ) ≤ pythonInt ((size + g1) / (n + m + 2 * g1)) := by
      have := pythonInt_nonneg hq1
      omega
    rw [pythonInt_of_nonneg hq1] at hone
    have hq1ge : (1 : ℚ) ≤ (size + g1) / (n + m + 2 * g1) := by
      have := Int.le_floor.mp hone
      exact_mod_cast this
    have hsum : n + m + g1 ≤ size := by
      have := (le_div_iff hd1pos).mp hq1ge
      linarith
    apply pythonInt_mono_of_nonneg (div_nonneg (by linarith) hd2pos.le)
    rw [div_le_div_iff hd2pos hd1pos]
    nlinarith [mul_nonneg (sub_nonneg.mpr hg12) (by linarith : (0 : ℚ) ≤ 2 * size - n - m)]
  · -- extra = 1: numerator size - n
    have e1 : size - ((1 : ℤ) : ℚ) * (n + g1) + g1 = size - n := by push_cast; ring
    have e2 : size - ((1 : ℤ) : ℚ) * (n + g2) + g2 = size - n := by push_cast; ring
    rw [e1] at hnf1 ⊢
    rw [e2]
    rcases le_or_lt (size - n) 0 with hsn | hsn
    · have hgt : -1 < (size - n) / (n + m + 2 * g1) := by
        rw [lt_div_iff hd1pos]
        linarith
      have hlt : (size - n) / (n + m + 2 * g1) < 1 := by
        rw [div_lt_one hd1pos]
        linarith
      exact absurd (pythonInt_eq_zero_of_mem hgt hlt) hnf1
    · apply pythonInt_mono_of_nonneg (div_nonneg (by linarith) hd2pos.le)
      rw [div_le_div_iff hd2pos hd1pos]
      nlinarith [mul_nonneg hsn.le (sub_nonneg.mpr hg12)]

/-- Inversion of a successful dynamic EqualSize resolution: the total
count as a function of `maxNumFingersAndNotches` and its parity. -/
theorem resolveDynamicEqual_ok_total {size : ℚ} {p : JointInputs} {nf nn : ℤ} {fs ns : ℚ}
    (h : resolveDynamicEqual size p = .ok nf nn fs ns) :
    ∃ m b : ℤ,
      p.minFingerSize + p.gap ≠ 0 ∧
      m = pythonInt ((size + p.gap) / (p.minFingerSize + p.gap)) ∧
      b = pythonInt ((m : ℚ) / 2) ∧
      ((p.placementType = .fingersOutside ∨ p.placementType = .notchesOutside) →
        ((m % 2 = 1 ∧ nf + nn = 2 * b + 1) ∨ (¬m % 2 = 1 ∧ nf + nn = 2 * b - 1))) ∧
      ((p.placementType = .sameNumberStartFinger ∨ p.placementType = .sameNumberStartNotch) →
        nf + nn = 2 * b) := by
  obtain ⟨pt, dt, mf, mn, fn, ff, fix, cnt, g⟩ := p
  unfold resolveDynamicEqual at h
  cases pt
  all_goals (
    dsimp only
    simp only [pyDiv] at h
    split_ifs at h with h1
    all_goals first
      | (simp at h; done)
      | (dsimp only at h
         split_ifs at h with h2 h3 h4 h5 <;>
           first
           | (simp at h; done)
           | (simp only [ResolveOutcome.ok.injEq] at h
              obtain ⟨e1, e2, e3, e4⟩ := h
              refine ⟨_, _, h1, rfl, rfl, ?_, ?_⟩ <;>
                first
                | (rintro (hc | hc) <;> simp at hc <;> done)
                | (intro hc
                   first
                   | (refine Or.inl ⟨h2, ?_⟩; omega)
                   | (refine Or.inr ⟨h2, ?_⟩; omega)
                   | omega))))

/-- Inversion of a successful dynamic FixedNotchSize resolution. -/
theorem resolveDynamicFixedNotch_ok_inv {size : ℚ} {p : JointInputs} {nf nn : ℤ} {fs ns : ℚ}
    (h : resolveDynamicFixedNotch size p = .ok nf nn fs ns) :
    ∃ x : ℤ,
      x = (match p.placementType with
           | .fingersOutside => -1
           | .notchesOutside => 1
           | _ => 0) ∧
      (x = -1 ∨ x = 0 ∨ x = 1) ∧
      p.fixedNotchSize + p.minFingerSize + 2 * p.gap ≠ 0 ∧
      nf = pythonInt ((size - (x : ℚ) * (p.fixedNotchSize + p.gap) + p.gap)
            / (p.fixedNotchSize + p.minFingerSize + 2 * p.gap)) ∧
      nf ≠ 0 ∧ nn = nf + x := by
  obtain ⟨pt, dt, mf, mn, fn, ff, fix, cnt, g⟩ := p
  unfold resolveDynamicFixedNotch at h
  cases pt
  all_goals (
    dsimp only
    simp only [pyDiv] at h
    split_ifs at h with h1
    all_goals first
      | (simp at h; done)
      | (dsimp only at h
         split_ifs at h with h2 h3 <;>
           first
           | (simp at h; done)
           | (simp only [ResolveOutcome.ok.injEq] at h
              obtain ⟨e1, e2, e3, e4⟩ := h
              exact ⟨_, rfl, by norm_num, h1, e1.symm, by omega, by omega⟩)))

/-- Inversion of a successful dynamic FixedFingerSize resolution. -/
theorem resolveDynamicFixedFinger_ok_inv {size : ℚ} {p : JointInputs} {nf nn : ℤ} {fs ns : ℚ}
    (h : resolveDynamicFixedFinger size p = .ok nf nn fs ns) :
    ∃ x : ℤ,
      x = (match p.placementType with
           | .fingersOutside => 1
           | .notchesOutside => -1
           | _ => 0) ∧
      (x = -1 ∨ x = 0 ∨ x = 1) ∧
      p.fixedFingerSize + p.minNotchSize + 2 * p.gap ≠ 0 ∧
      nn = pythonInt ((size - (x : ℚ) * (p.fixedFingerSize + p.gap) + p.gap)
            / (p.fixedFingerSize + p.minNotchSize + 2 * p.gap)) ∧
      nn ≠ 0 ∧ nf = nn + x := by
  obtain ⟨pt, dt, mf, mn, fn, ff, fix, cnt, g⟩ := p
  unfold resolveDynamicFixedFinger at h
  cases pt
  all_goals (
    dsimp only
    simp only [pyDiv] at h
    split_ifs at h with h1
    all_goals first
      | (simp at h; done)
      | (dsimp only at h
         split_ifs at h with h2 h3 <;>
           first
           | (simp at h; done)
           | (simp only [ResolveOutcome.ok.injEq] at h
              obtain ⟨e1, e2, e3, e4⟩ := h
              exact ⟨_, rfl, by norm_num, h1, e2.symm, by omega, by omega⟩)))

/-- C7: for the dynamic-count branches, with all other policy fields held
fixed and well-formed (non-negative), increasing the gap never increases
the total count `numFingers + numNotches` of a concrete resolution. -/
theorem claim7_gap_monotonicity (size : ℚ) (p : JointInputs) (g1 g2 : ℚ)
    (nf1 nn1 nf2 nn2 : ℤ) (fs1 ns1 fs2 ns2 : ℚ)
    (hfix : p.isNumberOfFingersFixed = false)
    (hsize : 0 < size)
    (hminF : 0 ≤ p.minFingerSize) (hminN : 0 ≤ p.minNotchSize)
    (hfn : 0 ≤ p.fixedNotchSize) (hff : 0 ≤ p.fixedFingerSize)
    (hg1 : 0 ≤ g1) (hg12 : g1 ≤ g2)
    (h1 : resolveCounts size { p with gap := g1 } = .ok nf1 nn1 fs1 ns1)
    (h2 : resolveCounts size { p with gap := g2 } = .ok nf2 nn2 fs2 ns2) :
    nf2 + nn2 ≤ nf1 + nn1 := by
  obtain ⟨pt, dt, mf, mn, fn, ff, fix, cnt, g⟩ := p
  simp only at hfix hminF hminN hfn hff
  subst hfix
  unfold resolveCounts at h1 h2
  simp only [Bool.false_eq_true, if_false] at h1 h2
  cases dt
  case fixedNotchSize =>
    obtain ⟨x1, hx1m, hx1or, hd1, he1, hne1, hnn1⟩ := resolveDynamicFixedNotch_ok_inv h1
    obtain ⟨x2, hx2m, hx2or, hd2, he2, hne2, hnn2⟩ := resolveDynamicFixedNotch_ok_inv h2
    dsimp only at hx1m hx2m hd1 hd2 he1 he2 hnn1 hnn2
    have hxx : x2 = x1 := by rw [hx2m, hx1m]
    subst hxx
    have hmono := pythonInt_ratio_mono size fn mf g1 g2 x2 hx1or hsize hfn hminF hg1 hg12 hd1
      (by rw [← he1]; exact hne1)
    omega
  case fixedFingerSize =>
    obtain ⟨x1, hx1m, hx1or, hd1, he1, hne1, hnn1⟩ := resolveDynamicFixedFinger_ok_inv h1
    obtain ⟨x2, hx2m, hx2or, hd2, he2, hne2, hnn2⟩ := resolveDynamicFixedFinger_ok_inv h2
    dsimp only at hx1m hx2m hd1 hd2 he1 he2 hnn1 hnn2
    have hxx : x2 = x1 := by rw [hx2m, hx1m]
    subst hxx
    have hmono := pythonInt_ratio_mono size ff mn g1 g2 x2 hx1or hsize hff hminN hg1 hg12 hd1
      (by rw [← he1]; exact hne1)
    omega
  case equalNotchAndFingerSize =>
    obtain ⟨m1, b1, hd1, hm1, hb1, hfo1, hsn1⟩ := resolveDynamicEqual_ok_total h1
    obtain ⟨m2, b2, hd2, hm2, hb2, hfo2, hsn2⟩ := resolveDynamicEqual_ok_total h2
    dsimp only at hd1 hd2 hm1 hm2 hb1 hb2 hfo1 hfo2 hsn1 hsn2
    have hd1pos : 0 < mf + g1 := lt_of_le_of_ne (by linarith) (Ne.symm hd1)
    have hd2pos : 0 < mf + g2 := by linarith
    have hm1n : 0 ≤ m1 := by
      rw [hm1]; exact pythonInt_nonneg (div_nonneg (by linarith) hd1pos.le)
    have hm2n : 0 ≤ m2 := by
      rw [hm2]; exact pythonInt_nonneg (div_nonneg (by linarith) hd2pos.le)
    have hb1b := pythonInt_half_bounds hm1n
    rw [← hb1] at hb1b
    have hb2b := pythonInt_half_bounds hm2n
    rw [← hb2] at hb2b
    have hmm : m2 ≤ m1 := by
      rw [hm1, hm2]
      exact pythonInt_max_mono size mf g1 g2 hsize hminF hg1 hg12 hd1
    cases pt
    case fingersOutside =>
      have t1 := hfo1 (Or.inl rfl)
      have t2 := hfo2 (Or.inl rfl)
      rcases t1 with ⟨hp1, ht1⟩ | ⟨hp1, ht1⟩ <;> rcases t2 with ⟨hp2, ht2⟩ | ⟨hp2, ht2⟩ <;> omega
    case notchesOutside =>
      have t1 := hfo1 (Or.inr rfl)
      have t2 := hfo2 (Or.inr rfl)
      rcases t1 with ⟨hp1, ht1⟩ | ⟨hp1, ht1⟩ <;> rcases t2 with ⟨hp2, ht2⟩ | ⟨hp2, ht2⟩ <;> omega
    case sameNumberStartFinger =>
      have t1 := hsn1 (Or.inl rfl)
      have t2 := hsn2 (Or.inl rfl)
      omega
    case sameNumberStartNotch =>
      have t1 := hsn1 (Or.inr rfl)
      have t2 := hsn2 (Or.inr rfl)
      omega

/-- Witness for C7: dynamic EqualSize, size 10, minimal finger length 2,
gaps 0 and 1, fingers outside: totals 5 and 3. -/
theorem claim7_witness :
    ({ placementType := .fingersOutside
       dynamicSizeType := .equalNotchAndFingerSize
       minFingerSize := 2, minNotchSize := 2
       fixedNotchSize := 2, fixedFingerSize := 2
       isNumberOfFingersFixed := false
       fixedNumFingers := 3, gap := 0 } : JointInputs).isNumberOfFingersFixed = false ∧
    (0 : ℚ) < 10 ∧ (0 : ℚ) ≤ 0 ∧ (0 : ℚ) ≤ 1 ∧
    resolveCounts 10
      ({ placementType := .fingersOutside
         dynamicSizeType := .equalNotchAndFingerSize
         minFingerSize := 2, minNotchSize := 2
         fixedNotchSize := 2, fixedFingerSize := 2
         isNumberOfFingersFixed := false
         fixedNumFingers := 3, gap := 0 } : JointInputs) = .ok 3 2 2 2 ∧
    resolveCounts 10
      ({ placementType := .fingersOutside
         dynamicSizeType := .equalNotchAndFingerSize
         minFingerSize := 2, minNotchSize := 2
         fixedNotchSize := 2, fixedFingerSize := 2
         isNumberOfFingersFixed := false
         fixedNumFingers := 3, gap := 1 } : JointInputs) = .ok 2 1 (8/3) (8/3) ∧
    (2 : ℤ) + 1 ≤ 3 + 2 := by
  have e1 : resolveCounts 10
      ({ placementType := .fingersOutside
         dynamicSizeType := .equalNotchAndFingerSize
         minFingerSize := 2, minNotchSize := 2
         fixedNotchSize := 2, fixedFingerSize := 2
         isNumberOfFingersFixed := false
         fixedNumFingers := 3, gap := 0 } : JointInputs) = .ok 3 2 2 2 := by
    norm_num [resolveCounts, resolveDynamicEqual, pyDiv, pythonInt]
  have e2 : resolveCounts 10
      ({ placementType := .fingersOutside
         dynamicSizeType := .equalNotchAndFingerSize
         minFingerSize := 2, minNotchSize := 2
         fixedNotchSize := 2, fixedFingerSize := 2
         isNumberOfFingersFixed := false
         fixedNumFingers := 3, gap := 1 } : JointInputs) = .ok 2 1 (8/3) (8/3) := by
    norm_num [resolveCounts, resolveDynamicEqual, pyDiv, pythonInt]
  exact ⟨rfl, by norm_num, le_refl 0, by norm_num, e1, e2,
    claim7_gap_monotonicity 10
      { placementType := .fingersOutside
        dynamicSizeType := .equalNotchAndFingerSize
        minFingerSize := 2, minNotchSize := 2
        fixedNotchSize := 2, fixedFingerSize := 2
        isNumberOfFingersFixed := false
        fixedNumFingers := 3, gap := 0 } 0 1 3 2 2 1 2 2 (8/3) (8/3)
      rfl (by norm_num) (by norm_num) (by norm_num) (by norm_num) (by norm_num)
      (le_refl 0) (by norm_num) e1 e2⟩

/-! ### C8: placement symmetry -/

/-- Counterexample to C8 as stated: a dynamic EqualSize policy with
minFingerLength = 2 and minNotchLength = 3 at size 10. The swapped run
resolves counts from minNotchLength and yields two finger-tool intervals
of width 10/3, which is not the role-swapped image of the original's
three notch-tool intervals of width 2. -/
theorem claim8_counterexample :
    defineToolBodyDimensions 10
      { placementType := .fingersOutside
        dynamicSizeType := .equalNotchAndFingerSize
        minFingerSize := 2, minNotchSize := 3
        fixedNotchSize := 2, fixedFingerSize := 2
        isNumberOfFingersFixed := false
        fixedNumFingers := 3, gap := 0 } = .ok [(2, 2), (6, 2)] [(0, 2), (4, 2), (8, 2)] ∧
    defineToolBodyDimensions 10
      { placementType := .notchesOutside
        dynamicSizeType := .equalNotchAndFingerSize
        minFingerSize := 3, minNotchSize := 2
        fixedNotchSize := 2, fixedFingerSize := 2
        isNumberOfFingersFixed := false
        fixedNumFingers := 3, gap := 0 } =
      .ok [(0, 10/3), (20/3, 10/3)] [(10/3, 10/3)] ∧
    ([((0 : ℚ), (10 : ℚ)/3), (20/3, 10/3)] : List (ℚ × ℚ)).length ≠
      ([((0 : ℚ), (2 : ℚ)), (4, 2), (8, 2)] : List (ℚ × ℚ)).length := by
  refine ⟨?_, ?_, by simp⟩
  · norm_num [defineToolBodyDimensions, resolveCounts, resolveDynamicEqual, pyDiv,
      pythonInt, epsilon]
    norm_num [show Int.toNat 2 = 2 from rfl, show Int.toNat 3 = 3 from rfl, List.range_succ]
  · norm_num [defineToolBodyDimensions, resolveCounts, resolveDynamicEqual, pyDiv,
      pythonInt, epsilon]
    simp only [show (PlacementType.notchesOutside = PlacementType.fingersOutside
        ∨ PlacementType.notchesOutside = PlacementType.sameNumberStartFinger) = False from by
      simp, if_false]
    norm_num [show Int.toNat 1 = 1 from rfl, show Int.toNat 2 = 2 from rfl, List.range_succ]

theorem swap_tail_equal (size g : ℚ) (x y S T : ℤ) (hst : S = T) :
    (match pyDiv (size - ((S - 1 : ℤ) : ℚ) * g) ((S : ℤ) : ℚ) with
     | Option.none => ResolveOutcome.err
     | Option.some v => ResolveOutcome.ok x y v v) =
    mirrorOutcome (match pyDiv (size - ((T - 1 : ℤ) : ℚ) * g) ((T : ℤ) : ℚ) with
     | Option.none => ResolveOutcome.err
     | Option.some v => ResolveOutcome.ok y x v v) := by
  subst hst
  cases pyDiv (size - ((S - 1 : ℤ) : ℚ) * g) ((S : ℤ) : ℚ) <;> rfl

theorem resolveDynamicEqual_swap {size : ℚ} {p : JointInputs}
    (heq : p.minFingerSize = p.minNotchSize) :
    resolveDynamicEqual size (swapPolicy p) = mirrorOutcome (resolveDynamicEqual size p) := by
  obtain ⟨pt, dt, mf, mn, fn, ff, fix, cnt, g⟩ := p
  simp only at heq
  subst heq
  unfold resolveDynamicEqual swapPolicy
  dsimp only
  cases pt <;> dsimp only <;>
    (cases hq : pyDiv (size + g) (mf + g)
     · rfl
     · dsimp only
       split_ifs with h1 h2 h3 h4 h5 h6 h7 h8 <;> (try dsimp only at *) <;>
         first
         | rfl
         | (exfalso; simp only [Int.cast_eq_zero] at *; omega)
         | (exact swap_tail_equal size g _ _ _ _ (by omega))
         | (exfalso; omega))

theorem swap_tail_fixed_a (size g c w : ℚ) (x1 x2 S T : ℤ) (hst : S = T) :
    (match pyDiv (size - ((S - 1 : ℤ) : ℚ) * g - c) ((x2 : ℤ) : ℚ) with
     | Option.none => ResolveOutcome.err
     | Option.some v => ResolveOutcome.ok x1 x2 w v) =
    mirrorOutcome (match pyDiv (size - ((T - 1 : ℤ) : ℚ) * g - c) ((x2 : ℤ) : ℚ) with
     | Option.none => ResolveOutcome.err
     | Option.some v => ResolveOutcome.ok x2 x1 v w) := by
  subst hst
  cases pyDiv (size - ((S - 1 : ℤ) : ℚ) * g - c) ((x2 : ℤ) : ℚ) <;> rfl

theorem swap_tail_fixed_b (size g c w : ℚ) (x1 x2 S T : ℤ) (hst : S = T) :
    (match pyDiv (size - ((S - 1 : ℤ) : ℚ) * g - c) ((x2 : ℤ) : ℚ) with
     | Option.none => ResolveOutcome.err
     | Option.some v => ResolveOutcome.ok x2 x1 v w) =
    mirrorOutcome (match pyDiv (size - ((T - 1 : ℤ) : ℚ) * g - c) ((x2 : ℤ) : ℚ) with
     | Option.none => ResolveOutcome.err
     | Option.some v => ResolveOutcome.ok x1 x2 w v) := by
  subst hst
  cases pyDiv (size - ((S - 1 : ℤ) : ℚ) * g - c) ((x2 : ℤ) : ℚ) <;> rfl

theorem fixedNotch_swap_case (size g w N D : ℚ) (x : ℤ) :
    (match pyDiv N D with
     | Option.none => ResolveOutcome.err
     | Option.some q =>
       if pythonInt q = 0 then ResolveOutcome.infeasible
       else
         match pyDiv (size - ((pythonInt q + x + pythonInt q - 1 : ℤ) : ℚ) * g
             - ((pythonInt q + x : ℤ) : ℚ) * w) ((pythonInt q : ℤ) : ℚ) with
         | Option.none => ResolveOutcome.err
         | Option.some v => ResolveOutcome.ok (pythonInt q + x) (pythonInt q) w v) =
    mirrorOutcome (match pyDiv N D with
     | Option.none => ResolveOutcome.err
     | Option.some q =>
       if pythonInt q = 0 then ResolveOutcome.infeasible
       else
         match pyDiv (size - ((pythonInt q + (pythonInt q + x) - 1 : ℤ) : ℚ) * g
             - ((pythonInt q + x : ℤ) : ℚ) * w) ((pythonInt q : ℤ) : ℚ) with
         | Option.none => ResolveOutcome.err
         | Option.some v => ResolveOutcome.ok (pythonInt q) (pythonInt q + x) v w) := by
  cases pyDiv N D
  · rfl
  · dsimp only
    split_ifs
    · rfl
    · exact swap_tail_fixed_a size g _ _ _ _ _ _ (by omega)

theorem fixedFinger_swap_case (size g w N D : ℚ) (x : ℤ) :
    (match pyDiv N D with
     | Option.none => ResolveOutcome.err
     | Option.some q =>
       if pythonInt q = 0 then ResolveOutcome.infeasible
       else
         match pyDiv (size - ((pythonInt q + (pythonInt q + x) - 1 : ℤ) : ℚ) * g
             - ((pythonInt q + x : ℤ) : ℚ) * w) ((pythonInt q : ℤ) : ℚ) with
         | Option.none => ResolveOutcome.err
         | Option.some v => ResolveOutcome.ok (pythonInt q) (pythonInt q + x) v w) =
    mirrorOutcome (match pyDiv N D with
     | Option.none => ResolveOutcome.err
     | Option.some q =>
       if pythonInt q = 0 then ResolveOutcome.infeasible
       else
         match pyDiv (size - ((pythonInt q + x + pythonInt q - 1 : ℤ) : ℚ) * g
             - ((pythonInt q + x : ℤ) : ℚ) * w) ((pythonInt q : ℤ) : ℚ) with
         | Option.none => ResolveOutcome.err
         | Option.some v => ResolveOutcome.ok (pythonInt q + x) (pythonInt q) w v) := by
  cases pyDiv N D
  · rfl
  · dsimp only
    split_ifs
    · rfl
    · exact swap_tail_fixed_b size g _ _ _ _ _ _ (by omega)

theorem resolveDynamicFixedNotch_swap {size : ℚ} (p : JointInputs) :
    resolveDynamicFixedFinger size (swapPolicy p)
      = mirrorOutcome (resolveDynamicFixedNotch size p) := by
  obtain ⟨pt, dt, mf, mn, fn, ff, fix, cnt, g⟩ := p
  unfold resolveDynamicFixedFinger resolveDynamicFixedNotch swapPolicy
  dsimp only
  cases pt <;> exact fixedNotch_swap_case size g fn _ _ _

theorem resolveDynamicFixedFinger_swap {size : ℚ} (p : JointInputs) :
    resolveDynamicFixedNotch size (swapPolicy p)
      = mirrorOutcome (resolveDynamicFixedFinger size p) := by
  obtain ⟨pt, dt, mf, mn, fn, ff, fix, cnt, g⟩ := p
  unfold resolveDynamicFixedNotch resolveDynamicFixedFinger swapPolicy
  dsimp only
  cases pt <;> exact fixedFinger_swap_case size g ff _ _ _

theorem swap_tail_fixedcount_a (w A B : ℚ) (c : ℤ) :
    (match pyDiv A B with
     | Option.none => ResolveOutcome.err
     | Option.some v => ResolveOutcome.ok c c w v) =
    mirrorOutcome (match pyDiv A B with
     | Option.none => ResolveOutcome.err
     | Option.some v => ResolveOutcome.ok c c v w) := by
  cases pyDiv A B <;> rfl

theorem swap_tail_fixedcount_b (w A B : ℚ) (c : ℤ) :
    (match pyDiv A B with
     | Option.none => ResolveOutcome.err
     | Option.some v => ResolveOutcome.ok c c v w) =
    mirrorOutcome (match pyDiv A B with
     | Option.none => ResolveOutcome.err
     | Option.some v => ResolveOutcome.ok c c w v) := by
  cases pyDiv A B <;> rfl

theorem resolveFixedCount_swap {size : ℚ} {p : JointInputs}
    (hpt : p.placementType = .sameNumberStartFinger ∨ p.placementType = .sameNumberStartNotch) :
    resolveFixedCount size (swapPolicy p) = mirrorOutcome (resolveFixedCount size p) := by
  obtain ⟨pt, dt, mf, mn, fn, ff, fix, cnt, g⟩ := p
  simp only at hpt
  unfold resolveFixedCount swapPolicy
  dsimp only
  rcases hpt with rfl | rfl <;> cases dt <;> dsimp only <;>
    first
    | exact swap_tail_fixedcount_a fn _ _ cnt
    | exact swap_tail_fixedcount_b ff _ _ cnt
    | exact swap_tail_equal size g cnt cnt _ _ rfl

theorem resolveCounts_swap (size : ℚ) (p : JointInputs)
    (hfixpl : p.isNumberOfFingersFixed = true →
      p.placementType = .sameNumberStartFinger ∨ p.placementType = .sameNumberStartNotch)
    (heq : p.isNumberOfFingersFixed = false →
      p.dynamicSizeType = .equalNotchAndFingerSize → p.minFingerSize = p.minNotchSize) :
    resolveCounts size (swapPolicy p) = mirrorOutcome (resolveCounts size p) := by
  have hsw : (swapPolicy p).isNumberOfFingersFixed = p.isNumberOfFingersFixed := rfl
  unfold resolveCounts
  cases hfix : p.isNumberOfFingersFixed with
  | true =>
    simp only [show (swapPolicy p).isNumberOfFingersFixed = true from by rw [hsw, hfix],
      hfix, if_true]
    exact resolveFixedCount_swap (hfixpl hfix)
  | false =>
    simp only [show (swapPolicy p).isNumberOfFingersFixed = false from by rw [hsw, hfix],
      hfix, Bool.false_eq_true, if_false]
    cases hdt : p.dynamicSizeType with
    | equalNotchAndFingerSize =>
      have hdt2 : (swapPolicy p).dynamicSizeType = .equalNotchAndFingerSize := by
        simp [swapPolicy, hdt]
      rw [hdt2]
      exact resolveDynamicEqual_swap (heq hfix hdt)
    | fixedNotchSize =>
      have hdt2 : (swapPolicy p).dynamicSizeType = .fixedFingerSize := by
        simp [swapPolicy, hdt]
      rw [hdt2]
      exact resolveDynamicFixedNotch_swap p
    | fixedFingerSize =>
      have hdt2 : (swapPolicy p).dynamicSizeType = .fixedNotchSize := by
        simp [swapPolicy, hdt]
      rw [hdt2]
      exact resolveDynamicFixedFinger_swap p

/-- C8 amended: swapping the finger and notch roles of a policy — the
placement reflected (FingersOutside ↔ NotchesOutside and
SameNumberStartFinger ↔ SameNumberStartNotch), the size mode's fixed side
exchanged (FixedFingerSize ↔ FixedNotchSize) and the fixed and minimal
finger/notch lengths exchanged — yields the exactly mirrored result (same
feasibility, counts and lengths with roles exchanged, finger-tool and
notch-tool slice lists exchanged), provided the policy is dynamic-count
(or fixed-count with a same-number placement, since the fixed count always
counts fingers) and, in the dynamic EqualSize mode, the two minimal
lengths agree (the code reads only minFingerLength there). -/
theorem claim8_amended (size : ℚ) (p : JointInputs)
    (hfixpl : p.isNumberOfFingersFixed = true →
      p.placementType = .sameNumberStartFinger ∨ p.placementType = .sameNumberStartNotch)
    (heq : p.isNumberOfFingersFixed = false →
      p.dynamicSizeType = .equalNotchAndFingerSize → p.minFingerSize = p.minNotchSize) :
    defineToolBodyDimensions size (swapPolicy p)
      = mirrorDims (defineToolBodyDimensions size p) := by
  have hrc := resolveCounts_swap size p hfixpl heq
  unfold defineToolBodyDimensions
  rw [hrc]
  cases hr : resolveCounts size p with
  | err => rfl
  | infeasible => rfl
  | ok nf nn fs ns =>
    dsimp only [mirrorOutcome]
    rw [show (swapPolicy p).gap = p.gap from rfl]
    have hiff : (ns ≤ epsilon ∨ fs ≤ epsilon ∨ nn < 0 ∨ nf < 0 ∨ nn + nf = 1
        ∨ ns * (nn : ℚ) + fs * (nf : ℚ) + ((nn + nf - 1 : ℤ) : ℚ) * p.gap - epsilon > size)
        ↔ (fs ≤ epsilon ∨ ns ≤ epsilon ∨ nf < 0 ∨ nn < 0 ∨ nf + nn = 1
        ∨ fs * (nf : ℚ) + ns * (nn : ℚ) + ((nf + nn - 1 : ℤ) : ℚ) * p.gap - epsilon > size) := by
      constructor <;> intro h <;> rcases h with h|h|h|h|h|h <;>
        first
        | exact Or.inl h
        | exact Or.inr (Or.inl h)
        | exact Or.inr (Or.inr (Or.inl h))
        | exact Or.inr (Or.inr (Or.inr (Or.inl h)))
        | exact Or.inr (Or.inr (Or.inr (Or.inr (Or.inl (by omega)))))
        | exact Or.inr (Or.inr (Or.inr (Or.inr (Or.inr (by push_cast at h ⊢; linarith)))))
    by_cases hg : (fs ≤ epsilon ∨ ns ≤ epsilon ∨ nf < 0 ∨ nn < 0 ∨ nf + nn = 1
        ∨ fs * (nf : ℚ) + ns * (nn : ℚ) + ((nf + nn - 1 : ℤ) : ℚ) * p.gap - epsilon > size)
    · rw [if_pos hg, if_pos (hiff.mpr hg)]
      rfl
    · rw [if_neg hg, if_neg (fun hc => hg (hiff.mp hc))]
      have hplswap : (swapPolicy p).placementType = (match p.placementType with
          | PlacementType.fingersOutside => PlacementType.notchesOutside
          | PlacementType.notchesOutside => PlacementType.fingersOutside
          | PlacementType.sameNumberStartFinger => PlacementType.sameNumberStartNotch
          | PlacementType.sameNumberStartNotch => PlacementType.sameNumberStartFinger) := rfl
      rw [hplswap]
      cases hpt : p.placementType <;>
        (dsimp only
         simp only [mirrorDims,
           eq_self_iff_true, true_or, or_true, or_self,
           show (PlacementType.notchesOutside = PlacementType.fingersOutside
               ∨ PlacementType.notchesOutside = PlacementType.sameNumberStartFinger)
               = False from by simp,
           show (PlacementType.sameNumberStartNotch = PlacementType.fingersOutside
               ∨ PlacementType.sameNumberStartNotch = PlacementType.sameNumberStartFinger)
               = False from by simp,
           if_true, if_false, DimsResult.ok.injEq]
         constructor <;>
           (refine congrFun (congrArg List.map ?_) _
            funext i
            simp only [Prod.mk.injEq]
            constructor <;> ring))

/-- Witness for the amended C8: a dynamic FixedNotchSize policy with
fingers outside and its role-swapped FixedFingerSize, notches-outside
image. -/
theorem claim8_witness :
    (({ placementType := .fingersOutside
        dynamicSizeType := .fixedNotchSize
        minFingerSize := 2, minNotchSize := 5
        fixedNotchSize := 2, fixedFingerSize := 7
        isNumberOfFingersFixed := false
        fixedNumFingers := 3, gap := 0 } : JointInputs).isNumberOfFingersFixed = true →
      ({ placementType := .fingersOutside
         dynamicSizeType := .fixedNotchSize
         minFingerSize := 2, minNotchSize := 5
         fixedNotchSize := 2, fixedFingerSize := 7
         isNumberOfFingersFixed := false
         fixedNumFingers := 3, gap := 0 } : JointInputs).placementType = .sameNumberStartFinger
        ∨ ({ placementType := .fingersOutside
             dynamicSizeType := .fixedNotchSize
             minFingerSize := 2, minNotchSize := 5
             fixedNotchSize := 2, fixedFingerSize := 7
             isNumberOfFingersFixed := false
             fixedNumFingers := 3, gap := 0 } : JointInputs).placementType
             = .sameNumberStartNotch) ∧
    (({ placementType := .fingersOutside
        dynamicSizeType := .fixedNotchSize
        minFingerSize := 2, minNotchSize := 5
        fixedNotchSize := 2, fixedFingerSize := 7
        isNumberOfFingersFixed := false
        fixedNumFingers := 3, gap := 0 } : JointInputs).isNumberOfFingersFixed = false →
      ({ placementType := .fingersOutside
         dynamicSizeType := .fixedNotchSize
         minFingerSize := 2, minNotchSize := 5
         fixedNotchSize := 2, fixedFingerSize := 7
         isNumberOfFingersFixed := false
         fixedNumFingers := 3, gap := 0 } : JointInputs).dynamicSizeType
          = .equalNotchAndFingerSize →
      (2 : ℚ) = 5) ∧
    defineToolBodyDimensions 10
      (swapPolicy { placementType := .fingersOutside
                    dynamicSizeType := .fixedNotchSize
                    minFingerSize := 2, minNotchSize := 5
                    fixedNotchSize := 2, fixedFingerSize := 7
                    isNumberOfFingersFixed := false
                    fixedNumFingers := 3, gap := 0 }) =
      mirrorDims (defineToolBodyDimensions 10
        { placementType := .fingersOutside
          dynamicSizeType := .fixedNotchSize
          minFingerSize := 2, minNotchSize := 5
          fixedNotchSize := 2, fixedFingerSize := 7
          isNumberOfFingersFixed := false
          fixedNumFingers := 3, gap := 0 }) :=
  ⟨by intro h; exact absurd h (by decide),
   by intro _ h; exact absurd h (by decide),
   claim8_amended 10 _
     (by intro h; exact absurd h (by decide))
     (by intro _ h; exact absurd h (by decide))⟩

end FingerJoints
